import Mathlib

/-!
# Encrypted JSON Web Key store over SQL (package jwk)

A shallow embedding of `jwk/manager_sql.go`: the migration registry `Migrations`, the
schema application `CreateSchemas` and the key store operations `AddKey`, `AddKeySet`,
`GetKey`, `GetKeySet`, `DeleteKey`, `DeleteKeySet` of `SQLManager`.

The relational engine, `database/sql`, `sqlx`, `sqlcon`, `pkg/errors`, `sql-migrate`, the
AEAD cipher and the JSON codec are collaborators of the package.  The engine is modelled
as a small interpreter for exactly the statements that occur in the two source files, the
error libraries as a tree of wrappers around a root cause, and the cipher and the codec
are parameters.
-/

namespace Jwk

deriving instance DecidableEq for Except

/-! ## Errors -/

/-- A failure of the connection or the driver that is unrelated to the meaning of the
statement (connection lost, transaction already closed, ...).  Only its text is used. -/
structure DriverFault where
  msg : String
deriving DecidableEq, Repr

/-- Errors that a statement sent through `database/sql` can come back with. -/
inductive SqlErr where
  | ErrNoRows
  | uniqueViolation
  | undefinedTable
  | undefinedColumn
  | duplicateColumn
  | notNullViolation
  | valueTooLong
  | fault (f : DriverFault)
deriving DecidableEq, Repr

/-- Text of a `SqlErr`, the result of its `Error()` method. -/
def SqlErr.Message : SqlErr → String
  | .ErrNoRows => "sql: no rows in result set"
  | .uniqueViolation => "duplicate key value violates unique constraint"
  | .undefinedTable => "relation hydra_jwk does not exist"
  | .undefinedColumn => "column does not exist"
  | .duplicateColumn => "column already exists"
  | .notNullViolation => "null value violates not-null constraint"
  | .valueTooLong => "value too long for type character varying"
  | .fault f => f.msg

/-- Root causes: the error values that are not themselves wrappers. -/
inductive Root where
  | ErrNotFound
  | ErrUniqueViolation
  | sql (e : SqlErr)
  | cipher (msg : String)
  | json (msg : String)
  | TxError (id : String) (e : SqlErr)
deriving DecidableEq, Repr

/-- Error values as built by `github.com/pkg/errors`: a root cause under any number of
`WithStack` and `Wrap` layers. -/
inductive Error where
  | root (r : Root)
  | WithStack (e : Error)
  | Wrap (e : Error) (message : String)
deriving DecidableEq, Repr

/-- Text of a root cause. -/
def Root.Message : Root → String
  | .ErrNotFound => "Not found"
  | .ErrUniqueViolation =>
      "Unable to insert or update resource because a resource with that value exists already"
  | .sql e => e.Message
  | .cipher msg => msg
  | .json msg => msg
  | .TxError id e => e.Message ++ " handling " ++ id

/-- The function `errors.Cause`: the root under all wrappers. -/
def Error.Cause : Error → Root
  | .root r => r
  | .WithStack e => e.Cause
  | .Wrap e _ => e.Cause

/-- The text returned by `Error()`: `Wrap` puts its message and a colon in front. -/
def Error.Message : Error → String
  | .root r => r.Message
  | .WithStack e => e.Message
  | .Wrap e message => message ++ ": " ++ e.Message

/-- The not-found signal, as callers match it: `errors.Cause(err) == pkg.ErrNotFound`. -/
def Error.IsNotFound (e : Error) : Bool :=
  decide (e.Cause = Root.ErrNotFound)

/-- The `sqlcon.HandleError` normalisation: no rows becomes the not-found signal, a unique
violation becomes the conflict error wrapped with the driver text, anything else is passed
on with a stack. -/
def HandleError : SqlErr → Error
  | .ErrNoRows => .WithStack (.root .ErrNotFound)
  | .uniqueViolation => .Wrap (.root .ErrUniqueViolation) SqlErr.uniqueViolation.Message
  | e => .WithStack (.root (.sql e))

/-! ## Keys, cipher and codec -/

/-- The key object `jose.JSONWebKey`: an identifier and the key material with its
metadata. -/
structure JSONWebKey where
  Key : String
  KeyID : String
  Algorithm : String
  Use : String
deriving DecidableEq, Repr

/-- The key set `jose.JSONWebKeySet`. -/
structure JSONWebKeySet where
  Keys : List JSONWebKey
deriving DecidableEq, Repr

/-- The cipher capability `AEAD`: `Encrypt` maps bytes to a text, `Decrypt` maps a text
back to bytes; each may fail with a message. -/
structure AEAD where
  Encrypt : String → Except String String
  Decrypt : String → Except String String

/-- The codec `encoding/json` restricted to `JSONWebKey`. -/
structure JSON where
  Marshal : JSONWebKey → Except String String
  Unmarshal : String → Except String JSONWebKey

/-! ## The relational engine -/

/-- The column names of `hydra_jwk`, the `db` tags of `sqlData`. -/
inductive ColName where
  | sid
  | kid
  | version
  | keydata
  | created_at
deriving DecidableEq, Repr

/-- Column types used by the migrations. -/
inductive ColType where
  | varchar (n : Nat)
  | int
  | text
  | timestamp
deriving DecidableEq, Repr

/-- Column defaults used by the migrations: an integer literal or `NOW()`. -/
inductive ColDefault where
  | lit (v : Int)
  | now
deriving DecidableEq, Repr

/-- One column of a table definition. -/
structure Column where
  name : ColName
  type : ColType
  notNull : Bool
  dflt : Option ColDefault
deriving DecidableEq, Repr

/-- The shape of a table: its columns in order and its primary key. -/
structure TableDef where
  columns : List Column
  primaryKey : List ColName
deriving DecidableEq, Repr

/-- One row, in the form of the Go struct `sqlData` it is bound from and scanned into.
`CreatedAt` is a point in time counted in clock ticks. -/
structure sqlData where
  Set : String
  KID : String
  Version : Int
  CreatedAt : Nat
  Key : String
deriving DecidableEq, Repr

/-- The table `hydra_jwk`: shape and rows in insertion order. -/
structure Table where
  shape : TableDef
  rows : List sqlData
deriving DecidableEq, Repr

/-- The database: the table `hydra_jwk` when it exists, the bookkeeping records of
`sql-migrate` as pairs of bookkeeping table name and migration id, and the server clock
read by `NOW()`. -/
structure Database where
  hydra_jwk : Option Table
  records : List (String × String)
  now : Nat
deriving DecidableEq, Repr

/-- Time passing on the server between two calls. -/
def Database.advance (db : Database) (d : Nat) : Database :=
  { db with now := db.now + d }

/-- Rows of `hydra_jwk`; none when the table does not exist. -/
def Database.rows (db : Database) : List sqlData :=
  match db.hydra_jwk with
  | none => []
  | some t => t.rows

/-- A cell value, for comparing primary keys. -/
inductive Value where
  | str (s : String)
  | int (i : Int)
  | time (t : Nat)
deriving DecidableEq, Repr

/-- The cell of a row under a column. -/
def sqlData.cell (r : sqlData) : ColName → Value
  | .sid => .str r.Set
  | .kid => .str r.KID
  | .version => .int r.Version
  | .keydata => .str r.Key
  | .created_at => .time r.CreatedAt

/-- Whether the shape has a column of the given name. -/
def TableDef.hasColumn (d : TableDef) (c : ColName) : Bool :=
  d.columns.any (fun col => decide (col.name = c))

/-- The `WHERE` clauses of the package: `sid=?` and `sid=? AND kid=?`. -/
inductive Where where
  | sid (set : String)
  | sidKid (set kid : String)
deriving DecidableEq, Repr

/-- Columns a `WHERE` clause mentions. -/
def Where.cols : Where → List ColName
  | .sid _ => [.sid]
  | .sidKid _ _ => [.sid, .kid]

/-- Whether a row satisfies a `WHERE` clause. -/
def Where.test : Where → sqlData → Bool
  | .sid set, r => decide (r.Set = set)
  | .sidKid set kid, r => decide (r.Set = set) && decide (r.KID = kid)

/-- The statements that occur in `manager_sql.go` and in the migration test, all on the
table `hydra_jwk`.  `insert` lists the named columns and carries the bound values; a
`created_at` that is named is given as `NOW()`. -/
inductive Stmt where
  | createTableIfNotExists (d : TableDef)
  | dropTable
  | dropTableIfExists
  | addColumn (c : Column)
  | dropColumn (c : ColName)
  | delete (w : Where)
  | insert (cols : List ColName) (v : sqlData)
deriving DecidableEq, Repr

/-- The declared default of a column, if the shape has the column and it has one. -/
def TableDef.dflt (d : TableDef) (c : ColName) : Option ColDefault :=
  (d.columns.find? (fun col => decide (col.name = c))).bind (fun col => col.dflt)

/-- Whether some cell of the row is longer than its `varchar(n)` column allows. -/
def TableDef.tooLong (d : TableDef) (r : sqlData) : Bool :=
  d.columns.any (fun col =>
    match col.type, r.cell col.name with
    | .varchar n, .str s => decide (n < s.length)
    | _, _ => false)

/-- The primary key value of a row. -/
def TableDef.keyOf (d : TableDef) (r : sqlData) : List Value :=
  d.primaryKey.map r.cell

/-- Whether inserting the row would repeat the primary key of a stored row. -/
def Table.conflicts (t : Table) (r : sqlData) : Bool :=
  !t.shape.primaryKey.isEmpty && t.rows.any (fun old => decide (t.shape.keyOf old = t.shape.keyOf r))

/-- The row that `INSERT` stores: named columns take the bound value, the others their
default (`NOW()` reads the clock), and a column the table lacks stays at the zero value. -/
def Table.fill (t : Table) (now : Nat) (cols : List ColName) (v : sqlData) : sqlData :=
  { Set := if ColName.sid ∈ cols then v.Set else "",
    KID := if ColName.kid ∈ cols then v.KID else "",
    Version :=
      if ColName.version ∈ cols then v.Version
      else match t.shape.dflt .version with
        | some (.lit n) => n
        | _ => 0,
    CreatedAt :=
      if ColName.created_at ∈ cols then now
      else match t.shape.dflt .created_at with
        | some .now => now
        | _ => 0,
    Key := if ColName.keydata ∈ cols then v.Key else "" }

/-- The statement `INSERT INTO hydra_jwk (cols) VALUES (...)` on an existing table, with
the checks of a strict engine: the named columns exist, no column that is `NOT NULL`
without default is left out, no `varchar(n)` cell is longer than `n`, and the primary key
is not taken. -/
def Table.insert (t : Table) (now : Nat) (cols : List ColName) (v : sqlData) :
    Except SqlErr Table :=
  if !cols.all t.shape.hasColumn then .error .undefinedColumn
  else if t.shape.columns.any
      (fun col => col.notNull && col.dflt.isNone && !decide (col.name ∈ cols)) then
    .error .notNullViolation
  else if t.shape.tooLong (t.fill now cols v) then .error .valueTooLong
  else if t.conflicts (t.fill now cols v) then .error .uniqueViolation
  else .ok { t with rows := t.rows ++ [t.fill now cols v] }

/-- The value a stored row gets in a column that `ALTER TABLE ... ADD` creates. -/
def sqlData.init (r : sqlData) (c : Column) (now : Nat) : sqlData :=
  match c.name with
  | .sid => { r with Set := "" }
  | .kid => { r with KID := "" }
  | .version => { r with Version := match c.dflt with | some (.lit n) => n | _ => 0 }
  | .keydata => { r with Key := "" }
  | .created_at => { r with CreatedAt := match c.dflt with | some .now => now | _ => 0 }

/-- The row after its cell under a dropped column is gone (back at the zero value). -/
def sqlData.clear (r : sqlData) : ColName → sqlData
  | .sid => { r with Set := "" }
  | .kid => { r with KID := "" }
  | .version => { r with Version := 0 }
  | .keydata => { r with Key := "" }
  | .created_at => { r with CreatedAt := 0 }

/-- The meaning of a statement on the database. -/
def Database.run (db : Database) : Stmt → Except SqlErr Database
  | .createTableIfNotExists d =>
    match db.hydra_jwk with
    | some _ => .ok db
    | none => .ok { db with hydra_jwk := some { shape := d, rows := [] } }
  | .dropTable =>
    match db.hydra_jwk with
    | none => .error .undefinedTable
    | some _ => .ok { db with hydra_jwk := none }
  | .dropTableIfExists => .ok { db with hydra_jwk := none }
  | .addColumn c =>
    match db.hydra_jwk with
    | none => .error .undefinedTable
    | some t =>
      if t.shape.hasColumn c.name then .error .duplicateColumn
      else if c.notNull && c.dflt.isNone && !t.rows.isEmpty then .error .notNullViolation
      else .ok { db with hydra_jwk := some {
        shape := { columns := t.shape.columns ++ [c], primaryKey := t.shape.primaryKey },
        rows := t.rows.map (fun r => r.init c db.now) } }
  | .dropColumn c =>
    match db.hydra_jwk with
    | none => .error .undefinedTable
    | some t =>
      if !t.shape.hasColumn c then .error .undefinedColumn
      else .ok { db with hydra_jwk := some {
        shape := {
          columns := t.shape.columns.filter (fun col => !decide (col.name = c)),
          primaryKey := if c ∈ t.shape.primaryKey then [] else t.shape.primaryKey },
        rows := t.rows.map (fun r => r.clear c) } }
  | .delete w =>
    match db.hydra_jwk with
    | none => .error .undefinedTable
    | some t =>
      if !w.cols.all t.shape.hasColumn then .error .undefinedColumn
      else .ok { db with hydra_jwk := some {
        shape := t.shape,
        rows := t.rows.filter (fun r => !w.test r) } }
  | .insert cols v =>
    match db.hydra_jwk with
    | none => .error .undefinedTable
    | some t =>
      match t.insert db.now cols v with
      | .error e => .error e
      | .ok t2 => .ok { db with hydra_jwk := some t2 }

/-- The call `Exec` / `NamedExec` of a connection or transaction: the driver either fails
on its own or the engine runs the statement. -/
def Database.Exec (db : Database) (fault : Option DriverFault) (s : Stmt) :
    Except SqlErr Database :=
  match fault with
  | some f => .error (.fault f)
  | none => db.run s

/-- The query `SELECT * FROM hydra_jwk WHERE ... ORDER BY created_at DESC` through
`sqlx.Select`: the matching rows, most recent first (rows of equal time keep their
insertion order). -/
def Database.Select (db : Database) (fault : Option DriverFault) (w : Where) :
    Except SqlErr (List sqlData) :=
  match fault with
  | some f => .error (.fault f)
  | none =>
    match db.hydra_jwk with
    | none => .error .undefinedTable
    | some t =>
      if !w.cols.all t.shape.hasColumn || !t.shape.hasColumn .created_at then
        .error .undefinedColumn
      else
        .ok ((t.rows.filter w.test).insertionSort (fun a b => b.CreatedAt ≤ a.CreatedAt))

/-- The same query through `sqlx.Get`: the first row of the result, `sql.ErrNoRows` when
there is none. -/
def Database.Get (db : Database) (fault : Option DriverFault) (w : Where) :
    Except SqlErr sqlData :=
  match db.Select fault w with
  | .error e => .error e
  | .ok [] => .error .ErrNoRows
  | .ok (d :: _) => .ok d

/-- Whether the table exists and has all the listed columns. -/
def Database.hasColumns (db : Database) (cols : List ColName) : Bool :=
  match db.hydra_jwk with
  | none => false
  | some t => cols.all t.shape.hasColumn

/-- The rows matching a `WHERE` clause, most recent first: the result of the query on a
table that has the columns the query names. -/
def Database.query (db : Database) (w : Where) : List sqlData :=
  (db.rows.filter w.test).insertionSort (fun a b => b.CreatedAt ≤ a.CreatedAt)

/-! ## The migration registry -/

/-- One schema change of `sql-migrate`: an id, forward statements, reverse statements. -/
structure Migration where
  Id : String
  Up : List Stmt
  Down : List Stmt
deriving DecidableEq, Repr

/-- The table created by migration 1: `sid` and `kid` of at most 255 characters,
`version` defaulting to 0, `keydata`, all not null; primary key `(sid, kid)`. -/
def createTable : TableDef :=
  { columns :=
      [ { name := .sid, type := .varchar 255, notNull := true, dflt := none },
        { name := .kid, type := .varchar 255, notNull := true, dflt := none },
        { name := .version, type := .int, notNull := true, dflt := some (.lit 0) },
        { name := .keydata, type := .text, notNull := true, dflt := none } ],
    primaryKey := [.sid, .kid] }

/-- The column added by migration 2: `created_at TIMESTAMP NOT NULL DEFAULT NOW()`. -/
def createdAt : Column :=
  { name := .created_at, type := .timestamp, notNull := true, dflt := some .now }

/-- The registry `Migrations` of `manager_sql.go`. -/
def Migrations : List Migration :=
  [ { Id := "1", Up := [.createTableIfNotExists createTable], Down := [.dropTable] },
    { Id := "2", Up := [.addColumn createdAt], Down := [.dropColumn .created_at] },
    { Id := "3", Up := [.delete (.sid "hydra.openid.id-token")], Down := [] } ]

/-- The table shape after all three migrations. -/
def migratedShape : TableDef :=
  { columns := createTable.columns ++ [createdAt], primaryKey := [.sid, .kid] }

/-- The bound values of a literal insert of the migration test. -/
def testRow (sid kid : String) : sqlData :=
  { Set := sid, KID := kid, Version := 0, CreatedAt := 0, Key := "some-key" }

/-- The data steps `createJWKMigrations` of the migration test. -/
def createJWKMigrations : List Migration :=
  [ { Id := "1-data",
      Up := [.insert [.sid, .kid, .version, .keydata] (testRow "1-sid" "1-kid")],
      Down := [.delete (.sid "1-sid")] },
    { Id := "2-data",
      Up := [.insert [.sid, .kid, .version, .keydata, .created_at] (testRow "2-sid" "2-kid")],
      Down := [.delete (.sid "2-sid")] },
    { Id := "3-data",
      Up := [.insert [.sid, .kid, .version, .keydata, .created_at] (testRow "3-sid" "3-kid")],
      Down := [.delete (.sid "3-sid")] } ]

/-- The interleaved list `migrations` of the migration test: a step that drops the table
if it exists, then the registry steps, each followed by a data step. -/
def testMigrations : List Migration :=
  [ { Id := "0-data", Up := [.dropTableIfExists], Down := [] },
    Migrations.get ⟨0, by decide⟩,
    createJWKMigrations.get ⟨0, by decide⟩,
    Migrations.get ⟨1, by decide⟩,
    createJWKMigrations.get ⟨1, by decide⟩,
    Migrations.get ⟨2, by decide⟩,
    createJWKMigrations.get ⟨2, by decide⟩ ]

/-- Direction of a run of `sql-migrate`. -/
inductive MigrationDirection where
  | Up
  | Down
deriving DecidableEq, Repr

/-- The leading decimal digits of a migration id. -/
def Migration.digits (m : Migration) : List Char :=
  m.Id.toList.takeWhile Char.isDigit

/-- Whether the id starts with a number. -/
def Migration.isNumeric (m : Migration) : Bool :=
  !m.digits.isEmpty

/-- The number the id starts with. -/
def Migration.VersionInt (m : Migration) : Nat :=
  m.digits.foldl (fun n c => 10 * n + (c.toNat - 48)) 0

/-- The order of `sql-migrate` on migrations: by leading number, numbered ids before
unnumbered ones, ties by the id as a text. -/
def Migration.Less (m other : Migration) : Bool :=
  if m.isNumeric && other.isNumeric && m.VersionInt != other.VersionInt then
    decide (m.VersionInt < other.VersionInt)
  else if m.isNumeric && !other.isNumeric then true
  else if !m.isNumeric && other.isNumeric then false
  else decide (m.Id.data < other.Id.data)

/-- Sorting by id, as `FindMigrations` and `PlanMigration` do. -/
def byId (ms : List Migration) : List Migration :=
  ms.insertionSort (fun a b => b.Less a = false)

/-- The migrations still to run, given the id of the last one recorded: forward the
ones after it, backward the ones up to it in reverse order. -/
def ToApply (migrations : List Migration) (current : String) (dir : MigrationDirection) :
    List Migration :=
  let k : Nat :=
    if current = "" then 0
    else match migrations.findIdx? (fun m => decide (m.Id = current)) with
      | some i => i + 1
      | none => migrations.length
  match dir with
  | .Up => migrations.drop k
  | .Down => (migrations.take k).reverse

/-- Migrations ordered before the last recorded one that were never recorded; they are
run forward first. -/
def ToCatchup (migrations existing : List Migration) (lastRun : Migration) :
    List (Migration × List Stmt) :=
  (migrations.filter (fun m =>
    !existing.any (fun e => decide (e.Id = m.Id)) && m.Less lastRun)).map (fun m => (m, m.Up))

/-- The plan of a run: catch-up steps, then at most `max` steps in the direction asked
for (`max = 0` means no limit). -/
def PlanMigration (table : String) (db : Database) (source : List Migration)
    (dir : MigrationDirection) (max : Nat) : List (Migration × List Stmt) :=
  let migrations := byId source
  let existing := byId (((db.records.filter (fun r => decide (r.1 = table))).map
    (fun r => ({ Id := r.2, Up := [], Down := [] } : Migration))))
  let record : Migration := existing.getLast?.getD { Id := "", Up := [], Down := [] }
  let catchup := if existing.isEmpty then [] else ToCatchup migrations existing record
  let toApply := ToApply migrations record.Id dir
  let toApplyCount := if 0 < max && max < toApply.length then max else toApply.length
  catchup ++ (toApply.take toApplyCount).map (fun m =>
    match dir with
    | .Up => (m, m.Up)
    | .Down => (m, m.Down))

/-- Running the statements of one step in order inside its transaction. -/
def runQueries (db : Database) : List Stmt → Except SqlErr Database
  | [] => .ok db
  | s :: rest =>
    match db.run s with
    | .error e => .error e
    | .ok db2 => runQueries db2 rest

/-- The bookkeeping write of a step: a record is added going up, removed going down. -/
def record (table : String) (dir : MigrationDirection) (id : String) (db : Database) :
    Database :=
  match dir with
  | .Up => { db with records := db.records ++ [(table, id)] }
  | .Down => { db with records := db.records.filter (fun r => !decide (r = (table, id))) }

/-- The loop of `ExecMax` over the plan: each step is one transaction; when the driver
fails (`flt` at the id of the step) or a statement fails, the step is rolled back and the
loop returns the number of steps applied so far together with the `TxError`. -/
def applyPlanned (table : String) (dir : MigrationDirection)
    (flt : String → Option DriverFault) :
    List (Migration × List Stmt) → Nat → Database → (Nat × Option Error) × Database
  | [], applied, db => ((applied, none), db)
  | (m, queries) :: rest, applied, db =>
    match flt m.Id with
    | some f => ((applied, some (.root (.TxError m.Id (.fault f)))), db)
    | none =>
      match runQueries db queries with
      | .error e => ((applied, some (.root (.TxError m.Id e))), db)
      | .ok db2 => applyPlanned table dir flt rest (applied + 1) (record table dir m.Id db2)

/-- The function `migrate.ExecMax` with the bookkeeping table set by `migrate.SetTable`. -/
def migrate.ExecMax (table : String) (db : Database) (flt : String → Option DriverFault)
    (source : List Migration) (dir : MigrationDirection) (max : Nat) :
    (Nat × Option Error) × Database :=
  applyPlanned table dir flt (PlanMigration table db source dir max) 0 db

/-- The function `migrate.Exec`: `ExecMax` without a limit. -/
def migrate.Exec (table : String) (db : Database) (flt : String → Option DriverFault)
    (source : List Migration) (dir : MigrationDirection) : (Nat × Option Error) × Database :=
  migrate.ExecMax table db flt source dir 0

/-- Whether the table exists with exactly the shape the three migrations produce. -/
def Database.migrated (db : Database) : Bool :=
  match db.hydra_jwk with
  | none => false
  | some t => decide (t.shape = migratedShape)

/-- Calling `ExecMax` with limit 1 a number of times, as the migration test does, with
time `d` passing after each call; returns the results of the calls in order. -/
def execSteps (table : String) (source : List Migration) (dir : MigrationDirection)
    (d : Nat) : Nat → Database → List (Nat × Option Error) × Database
  | 0, db => ([], db)
  | n + 1, db =>
    let r := migrate.ExecMax table db (fun _ => none) source dir 1
    let rest := execSteps table source dir d n (r.2.advance d)
    (r.1 :: rest.1, rest.2)

/-! ## The key store manager -/

/-- The manager `SQLManager`: the database it talks to and the cipher. -/
structure SQLManager where
  DB : Database
  Cipher : AEAD

/-- The method `CreateSchemas`: runs the registry forward under the bookkeeping table
`hydra_jwk_migration`; on failure it returns 0 and the error wrapped with a text that
carries the number of applied migrations. -/
def SQLManager.CreateSchemas (m : SQLManager) (flt : String → Option DriverFault) :
    (Nat × Option Error) × SQLManager :=
  match migrate.Exec "hydra_jwk_migration" m.DB flt Migrations .Up with
  | ((n, some err), db) =>
    ((0, some (.Wrap err
      ("Could not migrate sql schema, applied " ++ toString n ++ " Migrations"))),
     { m with DB := db })
  | ((n, none), db) => ((n, none), { m with DB := db })

/-- The insert statement of `AddKey` and `AddKeySet` with its bound struct. -/
def insertStmt (set : String) (key : JSONWebKey) (encrypted : String) : Stmt :=
  .insert [.sid, .kid, .version, .keydata]
    { Set := set, KID := key.KeyID, Version := 0, CreatedAt := 0, Key := encrypted }

/-- The method `AddKey`: marshal, encrypt, insert one row. -/
def SQLManager.AddKey (json : JSON) (m : SQLManager) (fault : Option DriverFault)
    (set : String) (key : JSONWebKey) : Option Error × SQLManager :=
  match json.Marshal key with
  | .error err => (some (.WithStack (.root (.json err))), m)
  | .ok out =>
    match m.Cipher.Encrypt out with
    | .error err => (some (.WithStack (.root (.cipher err))), m)
    | .ok encrypted =>
      match m.DB.Exec fault (insertStmt set key encrypted) with
      | .error err => (some (HandleError err), m)
      | .ok db => (none, { m with DB := db })

/-- What the driver does during one `AddKeySet` call: whether `Beginx` fails, whether the
insert of the i-th key fails on its own, whether `Commit` fails, whether `Rollback`
fails. -/
structure TxFaults where
  begin : Option DriverFault
  exec : Nat → Option DriverFault
  commit : Option DriverFault
  rollback : Option DriverFault

/-- The error branch repeated in `AddKeySet`: roll back; if that fails return the
triggering error wrapped with the text of the rollback error, else the given error. -/
def rollbackThen (f : TxFaults) (err : Root) (otherwise : Error) : Error :=
  match f.rollback with
  | some re => .Wrap (.root err) re.msg
  | none => otherwise

/-- The loop of `AddKeySet` over the keys, on the state seen inside the transaction. -/
def addKeySetLoop (json : JSON) (cipher : AEAD) (f : TxFaults) (set : String) :
    Nat → List JSONWebKey → Database → Except Error Database
  | _, [], tx => .ok tx
  | i, key :: rest, tx =>
    match json.Marshal key with
    | .error err => .error (rollbackThen f (.json err) (.WithStack (.root (.json err))))
    | .ok out =>
      match cipher.Encrypt out with
      | .error err => .error (rollbackThen f (.cipher err) (.WithStack (.root (.cipher err))))
      | .ok encrypted =>
        match tx.Exec (f.exec i) (insertStmt set key encrypted) with
        | .error err => .error (rollbackThen f (.sql err) (HandleError err))
        | .ok tx2 => addKeySetLoop json cipher f set (i + 1) rest tx2

/-- The method `AddKeySet`: begin a transaction, insert every key, commit; the database
changes only when the commit goes through. -/
def SQLManager.AddKeySet (json : JSON) (m : SQLManager) (f : TxFaults)
    (set : String) (keys : JSONWebKeySet) : Option Error × SQLManager :=
  match f.begin with
  | some err => (some (.WithStack (.root (.sql (.fault err)))), m)
  | none =>
    match addKeySetLoop json m.Cipher f set 0 keys.Keys m.DB with
    | .error err => (some err, m)
    | .ok tx =>
      match f.commit with
      | some err =>
        (some (rollbackThen f (.sql (.fault err)) (HandleError (.fault err))), m)
      | none => (none, { m with DB := tx })

/-- Decrypting and unmarshalling the data of one row, as `GetKey` and the loop body of
`GetKeySet` do. -/
def decode (json : JSON) (cipher : AEAD) (d : sqlData) : Except Error JSONWebKey :=
  match cipher.Decrypt d.Key with
  | .error err => .error (.WithStack (.root (.cipher err)))
  | .ok key =>
    match json.Unmarshal key with
    | .error err => .error (.WithStack (.root (.json err)))
    | .ok c => .ok c

/-- The method `GetKey`: the most recent row for `(set, kid)`, decoded, as a set of one
key. -/
def SQLManager.GetKey (json : JSON) (m : SQLManager) (fault : Option DriverFault)
    (set kid : String) : Except Error JSONWebKeySet :=
  match m.DB.Get fault (.sidKid set kid) with
  | .error err => .error (HandleError err)
  | .ok d =>
    match decode json m.Cipher d with
    | .error err => .error err
    | .ok c => .ok { Keys := [c] }

/-- The loop of `GetKeySet`: decode each row and append the key. -/
def getKeySetLoop (json : JSON) (cipher : AEAD) :
    List sqlData → List JSONWebKey → Except Error (List JSONWebKey)
  | [], keys => .ok keys
  | d :: ds, keys =>
    match decode json cipher d with
    | .error err => .error err
    | .ok c => getKeySetLoop json cipher ds (keys ++ [c])

/-- The method `GetKeySet`: all rows of the set, most recent first, each decoded. -/
def SQLManager.GetKeySet (json : JSON) (m : SQLManager) (fault : Option DriverFault)
    (set : String) : Except Error JSONWebKeySet :=
  match m.DB.Select fault (.sid set) with
  | .error err => .error (HandleError err)
  | .ok ds =>
    if ds.length = 0 then .error (.Wrap (.root .ErrNotFound) "")
    else
      match getKeySetLoop json m.Cipher ds [] with
      | .error err => .error err
      | .ok keys =>
        if keys.length = 0 then .error (.WithStack (.root .ErrNotFound))
        else .ok { Keys := keys }

/-- The method `DeleteKey`: delete the rows of `(set, kid)`; the row count is ignored. -/
def SQLManager.DeleteKey (m : SQLManager) (fault : Option DriverFault) (set kid : String) :
    Option Error × SQLManager :=
  match m.DB.Exec fault (.delete (.sidKid set kid)) with
  | .error err => (some (HandleError err), m)
  | .ok db => (none, { m with DB := db })

/-- The method `DeleteKeySet`: delete the rows of `set`; the row count is ignored. -/
def SQLManager.DeleteKeySet (m : SQLManager) (fault : Option DriverFault) (set : String) :
    Option Error × SQLManager :=
  match m.DB.Exec fault (.delete (.sid set)) with
  | .error err => (some (HandleError err), m)
  | .ok db => (none, { m with DB := db })

/-- The manager as it is `d` clock ticks later. -/
def SQLManager.later (m : SQLManager) (d : Nat) : SQLManager :=
  { m with DB := m.DB.advance d }

/-! ## Concrete collaborators used in the examples -/

/-- A toy cipher: encrypting puts the letter `e` in front, decrypting removes it and
fails on a text that does not start with it. -/
def markCipher : AEAD :=
  { Encrypt := fun b => .ok (String.mk (Char.ofNat 101 :: b.data)),
    Decrypt := fun s =>
      match s.data with
      | [] => .error "cipher: malformed ciphertext"
      | c :: rest =>
        if c = Char.ofNat 101 then .ok (String.mk rest)
        else .error "cipher: malformed ciphertext" }

/-- A cipher like `markCipher` whose encryption is forced to fail on one plaintext. -/
def failingCipher (bad : String) : AEAD :=
  { Encrypt := fun b =>
      if b = bad then .error "cipher: forced failure" else markCipher.Encrypt b,
    Decrypt := markCipher.Decrypt }

/-- The separator of the toy codec, a colon. -/
def sep : Char :=
  Char.ofNat 58

/-- A toy codec for keys without algorithm and use whose id has no colon: the id, a
colon, the key material. -/
def pairJSON : JSON :=
  { Marshal := fun k =>
      if k.Algorithm = "" ∧ k.Use = "" ∧ sep ∉ k.KeyID.data then
        .ok (String.mk (k.KeyID.data ++ sep :: k.Key.data))
      else .error "json: unsupported type",
    Unmarshal := fun b =>
      .ok { Key := String.mk (b.data.dropWhile (fun c => !decide (c = sep))).tail,
            KeyID := String.mk (b.data.takeWhile (fun c => !decide (c = sep))),
            Algorithm := "", Use := "" } }

/-- The key with the given id and key material and nothing else. -/
def keyWithId (kid material : String) : JSONWebKey :=
  { Key := material, KeyID := kid, Algorithm := "", Use := "" }

/-- A database on which nothing has run yet. -/
def freshDatabase (now : Nat) : Database :=
  { hydra_jwk := none, records := [], now := now }

/-- A database holding the migrated, empty table. -/
def migratedDatabase (now : Nat) : Database :=
  { hydra_jwk := some { shape := migratedShape, rows := [] }, records := [], now := now }

/-- No driver failure at any step. -/
def noFault : String → Option DriverFault :=
  fun _ => none

/-- No driver failure during an `AddKeySet` call. -/
def noTxFaults : TxFaults :=
  { begin := none, exec := fun _ => none, commit := none, rollback := none }


/-- A manager on the migrated, empty table with the toy cipher. -/
def emptyManager : SQLManager :=
  { DB := migratedDatabase 7, Cipher := markCipher }

/-- The manager after `AddKey("set-a", k1)`, one tick of time, `AddKey("set-a", k2)`. -/
def twoKeyManager : SQLManager :=
  let m1 := (emptyManager.AddKey pairJSON none "set-a" (keyWithId "k1" "material-1")).2
  ({ m1 with DB := m1.DB.advance 1 }.AddKey pairJSON none "set-a"
    (keyWithId "k2" "material-2")).2

/-- A manager whose table holds, for the set `set-a`, one well-formed row and a later row
whose data is not a ciphertext. -/
def corruptManager : SQLManager :=
  { DB :=
      { hydra_jwk := some
          { shape := migratedShape,
            rows :=
              [ { Set := "set-a", KID := "k1", Version := 0, CreatedAt := 7,
                  Key := "ek1:material-1" },
                { Set := "set-a", KID := "k2", Version := 0, CreatedAt := 8,
                  Key := "garbage" } ] },
        records := [], now := 9 },
    Cipher := markCipher }

/-- A database holding an empty table with the migrated columns but no primary key. -/
def unkeyedDatabase (now : Nat) : Database :=
  { hydra_jwk := some
      { shape := { columns := migratedShape.columns, primaryKey := [] }, rows := [] },
    records := [], now := now }

/-- A database where the table with all five columns exists before any migration was
recorded. -/
def preparedDatabase (now : Nat) : Database :=
  { hydra_jwk := some { shape := migratedShape, rows := [] }, records := [], now := now }

/-- A manager on the migrated, empty table whose cipher fails on the encoding of the key
`k2`. -/
def failingManager : SQLManager :=
  { DB := migratedDatabase 7, Cipher := failingCipher "k2:material-2" }

/-- Three keys `k1`, `k2`, `k3`. -/
def threeKeys : JSONWebKeySet :=
  { Keys := [keyWithId "k1" "material-1", keyWithId "k2" "material-2",
             keyWithId "k3" "material-3"] }

/-- A driver on which only `Rollback` fails. -/
def rollbackFails : TxFaults :=
  { begin := none, exec := fun _ => none, commit := none,
    rollback := some { msg := "driver: bad connection" } }

/-- The manager after `AddKey("set-a", old)` on the migrated, empty table and one tick of
time, where `old` has the id `k1`. -/
def afterFirstAdd : SQLManager :=
  let m1 := (emptyManager.AddKey pairJSON none "set-a" (keyWithId "k1" "old")).2
  { m1 with DB := m1.DB.advance 1 }

/-- The manager after two keys with the id `k1` were added, one tick apart, to a table
without the primary key. -/
def unkeyedTwice : SQLManager :=
  let m0 : SQLManager := { DB := unkeyedDatabase 7, Cipher := markCipher }
  let m1 := (m0.AddKey pairJSON none "set-a" (keyWithId "k1" "old")).2
  ({ m1 with DB := m1.DB.advance 1 }.AddKey pairJSON none "set-a" (keyWithId "k1" "new")).2

/-- A driver that fails while the migration with id `2` runs. -/
def failsAtTwo : String → Option DriverFault :=
  fun id => if id = "2" then some { msg := "driver: bad connection" } else none

/-- A database given by its table, the ids recorded in one bookkeeping table, and its
clock. -/
def recorded (table : String) (jwk : Option Table) (ids : List String) (now : Nat) :
    Database :=
  { hydra_jwk := jwk, records := ids.map (fun id => (table, id)), now := now }

/-- The bookkeeping table of `CreateSchemas`. -/
def schemaTable : String :=
  "hydra_jwk_migration"

/-- The bookkeeping table of the migration test. -/
def testTable : String :=
  "hydra_jwk_migration_integration"

/-- The row a literal insert of the migration test stores at time `t`. -/
def storedTestRow (sid kid : String) (t : Nat) : sqlData :=
  { Set := sid, KID := kid, Version := 0, CreatedAt := t, Key := "some-key" }

/-- The manager `CreateSchemas` leaves behind when the driver fails while step 2 runs:
the table exists without the `created_at` column. -/
def partlyMigrated : SQLManager :=
  ((SQLManager.mk (freshDatabase 3) markCipher).CreateSchemas failsAtTwo).2

/-- A manager on a table without the primary key that already holds a row for
`("set-a", "k1")`, written at the present clock tick. -/
def unkeyedSameTick : SQLManager :=
  ((SQLManager.mk (unkeyedDatabase 7) markCipher).AddKey pairJSON none "set-a"
    (keyWithId "k1" "old")).2

/-! ## Facts about the engine -/

theorem select_ok (db : Database) (w : Where)
    (hq : db.hasColumns (w.cols ++ [ColName.created_at]) = true) :
    db.Select none w = .ok (db.query w) := by
  unfold Database.hasColumns at hq
  unfold Database.Select Database.query Database.rows
  cases hdb : db.hydra_jwk with
  | none => simp [hdb] at hq
  | some t =>
    simp only [hdb] at hq ⊢
    rw [List.all_append] at hq
    simp only [Bool.and_eq_true, List.all_cons, List.all_nil, Bool.and_true] at hq
    simp [hq.1, hq.2]

theorem select_fault (db : Database) (f : DriverFault) (w : Where) :
    db.Select (some f) w = .error (.fault f) := rfl

theorem select_rows (db : Database) (fault : Option DriverFault) (w : Where)
    (ds : List sqlData) (h : db.Select fault w = .ok ds) : ds = db.query w := by
  unfold Database.Select at h
  unfold Database.query Database.rows
  cases fault with
  | some f => simp at h
  | none =>
    cases hdb : db.hydra_jwk with
    | none => simp [hdb] at h
    | some t =>
      simp only [hdb] at h ⊢
      split at h
      · simp at h
      · simpa using h.symm

theorem select_error_not_noRows (db : Database) (fault : Option DriverFault) (w : Where)
    (e : SqlErr) (h : db.Select fault w = .error e) : e ≠ .ErrNoRows := by
  unfold Database.Select at h
  cases fault with
  | some f => simp at h; subst h; simp
  | none =>
    cases hdb : db.hydra_jwk with
    | none => simp [hdb] at h; subst h; simp
    | some t =>
      simp only [hdb] at h
      split at h
      · simp at h; subst h; simp
      · simp at h

theorem mem_query (db : Database) (w : Where) (d : sqlData) :
    d ∈ db.query w ↔ d ∈ db.rows ∧ w.test d = true := by
  unfold Database.query
  rw [List.mem_insertionSort, List.mem_filter]

theorem query_eq_nil (db : Database) (w : Where) :
    db.query w = [] ↔ ∀ d ∈ db.rows, w.test d = false := by
  constructor
  · intro h d hd
    by_contra hc
    have : d ∈ db.query w := (mem_query db w d).2 ⟨hd, by simpa using hc⟩
    rw [h] at this
    simp at this
  · intro h
    cases hq : db.query w with
    | nil => rfl
    | cons d ds =>
      have hm : d ∈ db.query w := by rw [hq]; simp
      have := (mem_query db w d).1 hm
      rw [h d this.1] at this
      simp at this

theorem handleError_notFound (e : SqlErr) :
    (HandleError e).IsNotFound = true ↔ e = .ErrNoRows := by
  cases e <;> simp [HandleError, Error.IsNotFound, Error.Cause]

theorem decode_not_notFound (json : JSON) (cipher : AEAD) (d : sqlData) (e : Error)
    (h : decode json cipher d = .error e) : e.IsNotFound = false := by
  unfold decode at h
  cases hd : cipher.Decrypt d.Key with
  | error msg => simp [hd] at h; subst h; simp [Error.IsNotFound, Error.Cause]
  | ok b =>
    simp only [hd] at h
    cases hu : json.Unmarshal b with
    | error msg => simp [hu] at h; subst h; simp [Error.IsNotFound, Error.Cause]
    | ok c => simp [hu] at h

theorem getKeySet_length (json : JSON) (m : SQLManager) (fault : Option DriverFault)
    (set : String) (ks : JSONWebKeySet) (h : m.GetKeySet json fault set = .ok ks) :
    ks.Keys.length ≠ 0 := by
  unfold SQLManager.GetKeySet at h
  cases hs : m.DB.Select fault (.sid set) with
  | error e => simp [hs] at h
  | ok ds =>
    simp only [hs] at h
    split at h
    · simp at h
    · cases hl : getKeySetLoop json m.Cipher ds [] with
      | error e => simp [hl] at h
      | ok keys =>
        simp only [hl] at h
        split at h
        · simp at h
        · simp at h
          subst h
          assumption

theorem getKeySet_of_no_rows (json : JSON) (m : SQLManager) (set : String)
    (hq : m.DB.hasColumns [.sid, .created_at] = true)
    (hno : ∀ d ∈ m.DB.rows, d.Set ≠ set) :
    m.GetKeySet json none set = .error (.Wrap (.root .ErrNotFound) "") := by
  have hsel : m.DB.Select none (.sid set) = .ok (m.DB.query (.sid set)) :=
    select_ok m.DB (.sid set) hq
  have hnil : m.DB.query (.sid set) = [] := by
    rw [query_eq_nil]
    intro d hd
    simp [Where.test, hno d hd]
  unfold SQLManager.GetKeySet
  rw [hsel, hnil]
  simp

theorem getKeySet_not_ok_of_no_rows (json : JSON) (m : SQLManager)
    (fault : Option DriverFault) (set : String) (ks : JSONWebKeySet)
    (hno : ∀ d ∈ m.DB.rows, d.Set ≠ set) :
    m.GetKeySet json fault set ≠ .ok ks := by
  intro h
  unfold SQLManager.GetKeySet at h
  cases hs : m.DB.Select fault (.sid set) with
  | error e => simp [hs] at h
  | ok ds =>
    have hds := select_rows m.DB fault (.sid set) ds hs
    have hnil : m.DB.query (.sid set) = [] := by
      rw [query_eq_nil]
      intro d hd
      simp [Where.test, hno d hd]
    rw [hnil] at hds
    subst hds
    simp [hs] at h

theorem delete_ok (db : Database) (w : Where) (hq : db.hasColumns w.cols = true) :
    ∃ t, db.hydra_jwk = some t ∧
      db.Exec none (.delete w) = .ok { db with hydra_jwk := some {
        shape := t.shape,
        rows := t.rows.filter (fun r => !w.test r) } } := by
  unfold Database.hasColumns at hq
  cases hdb : db.hydra_jwk with
  | none => simp [hdb] at hq
  | some t =>
    simp only [hdb] at hq
    refine ⟨t, rfl, ?_⟩
    simp [Database.Exec, Database.run, hdb, hq]

theorem exec_delete (db : Database) (w : Where) (hq : db.hasColumns w.cols = true) :
    ∃ db2, db.Exec none (.delete w) = .ok db2 ∧
      db2.rows = db.rows.filter (fun r => !w.test r) ∧
      (∀ cols, db2.hasColumns cols = db.hasColumns cols) ∧
      ((∀ d ∈ db.rows, w.test d = false) → db2 = db) := by
  obtain ⟨t, ht, hex⟩ := delete_ok db w hq
  refine ⟨_, hex, ?_, ?_, ?_⟩
  · simp [Database.rows, ht]
  · intro cols
    simp [Database.hasColumns, ht]
  · intro hno
    have hf : t.rows.filter (fun r => !w.test r) = t.rows := by
      rw [List.filter_eq_self]
      intro d hd
      have : d ∈ db.rows := by simpa [Database.rows, ht] using hd
      simp [hno d this]
    rw [hf]
    cases db with
    | mk hj recs now =>
      simp only at ht
      subst ht
      rfl

theorem deleteKey_eq (m : SQLManager) (set kid : String) (db2 : Database)
    (h : m.DB.Exec none (.delete (.sidKid set kid)) = .ok db2) :
    m.DeleteKey none set kid = (none, { m with DB := db2 }) := by
  simp [SQLManager.DeleteKey, h]

theorem deleteKeySet_eq (m : SQLManager) (set : String) (db2 : Database)
    (h : m.DB.Exec none (.delete (.sid set)) = .ok db2) :
    m.DeleteKeySet none set = (none, { m with DB := db2 }) := by
  simp [SQLManager.DeleteKeySet, h]

/-- C3: on a table that holds no row for the set, `GetKeySet` returns the not-found error,
also after `DeleteKeySet` or `DeleteKey` removed the rows, and no call of `GetKeySet`
ever succeeds with a key set of length zero. -/
theorem C3_getKeySet_notFound (json : JSON) (m : SQLManager) (set : String)
    (hq : m.DB.hasColumns [.sid, .created_at] = true)
    (hno : ∀ d ∈ m.DB.rows, d.Set ≠ set) :
    m.GetKeySet json none set = .error (.Wrap (.root .ErrNotFound) "") ∧
    (Error.Wrap (.root .ErrNotFound) "").IsNotFound = true ∧
    (∀ fault ks, m.GetKeySet json fault set ≠ .ok ks) ∧
    (∀ (j : JSON) (m2 : SQLManager) (fault : Option DriverFault) (s : String)
        (ks : JSONWebKeySet), m2.GetKeySet j fault s = .ok ks → ks.Keys.length ≠ 0) ∧
    (∀ m0 : SQLManager, m0.DB.hasColumns [.sid, .created_at] = true →
        (m0.DeleteKeySet none set).2.GetKeySet json none set =
          .error (.Wrap (.root .ErrNotFound) "")) := by
  refine ⟨getKeySet_of_no_rows json m set hq hno, rfl, ?_, ?_, ?_⟩
  · intro fault ks
    exact getKeySet_not_ok_of_no_rows json m fault set ks hno
  · intro j m2 fault s ks h
    exact getKeySet_length j m2 fault s ks h
  · intro m0 h0
    have hsid : m0.DB.hasColumns (Where.sid set).cols = true := by
      unfold Database.hasColumns at h0 ⊢
      cases hdb : m0.DB.hydra_jwk with
      | none => simp [hdb] at h0
      | some t =>
        simp only [hdb, Where.cols] at h0 ⊢
        simp only [List.all_cons, List.all_nil, Bool.and_true, Bool.and_eq_true] at h0 ⊢
        exact h0.1
    obtain ⟨db2, hex, hrows, hcols, _⟩ := exec_delete m0.DB (.sid set) hsid
    rw [deleteKeySet_eq m0 set db2 hex]
    apply getKeySet_of_no_rows
    · show db2.hasColumns [.sid, .created_at] = true
      rw [hcols]
      exact h0
    · intro d hd
      have hd2 : d ∈ db2.rows := hd
      rw [hrows, List.mem_filter] at hd2
      simpa [Where.test] using hd2.2

/-- C3 at a concrete input: the migrated, empty table and the set `nonexistent-set`. -/
theorem C3_getKeySet_notFound_witness :
    (SQLManager.mk (migratedDatabase 7) markCipher).GetKeySet pairJSON none "nonexistent-set"
      = .error (.Wrap (.root .ErrNotFound) "") :=
  (C3_getKeySet_notFound pairJSON (SQLManager.mk (migratedDatabase 7) markCipher)
    "nonexistent-set" (by decide) (by decide)).1

/-- C7: when the driver delivers the statement and the table has the columns it names,
`DeleteKey` and `DeleteKeySet` return no error, also when no row matches; in that case
the database is unchanged; and running the same delete a second time returns no error
again and leaves the database as the first run left it. -/
theorem C7_delete_idempotent (m : SQLManager) (set kid : String)
    (hq : m.DB.hasColumns [.sid, .kid] = true) :
    ((m.DeleteKey none set kid).1 = none ∧
      ((∀ d ∈ m.DB.rows, ¬ (d.Set = set ∧ d.KID = kid)) →
        (m.DeleteKey none set kid).2.DB = m.DB) ∧
      ((m.DeleteKey none set kid).2.DeleteKey none set kid).1 = none ∧
      ((m.DeleteKey none set kid).2.DeleteKey none set kid).2.DB =
        (m.DeleteKey none set kid).2.DB) ∧
    ((m.DeleteKeySet none set).1 = none ∧
      ((∀ d ∈ m.DB.rows, d.Set ≠ set) → (m.DeleteKeySet none set).2.DB = m.DB) ∧
      ((m.DeleteKeySet none set).2.DeleteKeySet none set).1 = none ∧
      ((m.DeleteKeySet none set).2.DeleteKeySet none set).2.DB =
        (m.DeleteKeySet none set).2.DB) := by
  have hsid : m.DB.hasColumns (Where.sid set).cols = true := by
    unfold Database.hasColumns at hq ⊢
    cases hdb : m.DB.hydra_jwk with
    | none => simp [hdb] at hq
    | some t =>
      simp only [hdb, Where.cols] at hq ⊢
      simp only [List.all_cons, List.all_nil, Bool.and_true, Bool.and_eq_true] at hq ⊢
      exact hq.1
  constructor
  · obtain ⟨db2, hex, hrows, hcols, hsame⟩ := exec_delete m.DB (.sidKid set kid) hq
    have hq2 : db2.hasColumns (Where.sidKid set kid).cols = true := by
      rw [hcols]; exact hq
    obtain ⟨db3, hex3, hrows3, _, hsame3⟩ := exec_delete db2 (.sidKid set kid) hq2
    have h3 : db3 = db2 := by
      apply hsame3
      intro d hd
      rw [hrows, List.mem_filter] at hd
      simpa using hd.2
    rw [deleteKey_eq m set kid db2 hex]
    refine ⟨rfl, ?_, ?_, ?_⟩
    · intro hno
      apply hsame
      intro d hd
      have := hno d hd
      simp only [Where.test, Bool.and_eq_false_iff, decide_eq_false_iff_not]
      tauto
    · rw [deleteKey_eq { m with DB := db2 } set kid db3 hex3]
    · rw [deleteKey_eq { m with DB := db2 } set kid db3 hex3]
      exact h3
  · obtain ⟨db2, hex, hrows, hcols, hsame⟩ := exec_delete m.DB (.sid set) hsid
    have hq2 : db2.hasColumns (Where.sid set).cols = true := by
      rw [hcols]; exact hsid
    obtain ⟨db3, hex3, hrows3, _, hsame3⟩ := exec_delete db2 (.sid set) hq2
    have h3 : db3 = db2 := by
      apply hsame3
      intro d hd
      rw [hrows, List.mem_filter] at hd
      simpa using hd.2
    rw [deleteKeySet_eq m set db2 hex]
    refine ⟨rfl, ?_, ?_, ?_⟩
    · intro hno
      apply hsame
      intro d hd
      simp [Where.test, hno d hd]
    · rw [deleteKeySet_eq { m with DB := db2 } set db3 hex3]
    · rw [deleteKeySet_eq { m with DB := db2 } set db3 hex3]
      exact h3

/-- C7 at a concrete input: deleting a key that does not exist from the migrated, empty
table returns no error and changes nothing. -/
theorem C7_delete_idempotent_witness :
    (migratedDatabase 7).hasColumns [.sid, .kid] = true ∧
    ((SQLManager.mk (migratedDatabase 7) markCipher).DeleteKey none "set-a" "k1").1 = none ∧
    ((SQLManager.mk (migratedDatabase 7) markCipher).DeleteKey none "set-a" "k1").2.DB =
      migratedDatabase 7 :=
  ⟨by decide,
   (C7_delete_idempotent (SQLManager.mk (migratedDatabase 7) markCipher) "set-a" "k1"
     (by decide)).1.1,
   (C7_delete_idempotent (SQLManager.mk (migratedDatabase 7) markCipher) "set-a" "k1"
     (by decide)).1.2.1 (by decide)⟩

theorem get_of_select (db : Database) (fault : Option DriverFault) (w : Where) :
    (∃ e, db.Select fault w = .error e ∧ db.Get fault w = .error e ∧ e ≠ .ErrNoRows) ∨
    (db.Select fault w = .ok (db.query w) ∧ db.query w = [] ∧
      db.Get fault w = .error .ErrNoRows) ∨
    (∃ d rest, db.Select fault w = .ok (db.query w) ∧ db.query w = d :: rest ∧
      db.Get fault w = .ok d) := by
  cases hs : db.Select fault w with
  | error e =>
    left
    exact ⟨e, rfl, by simp [Database.Get, hs], select_error_not_noRows db fault w e hs⟩
  | ok ds =>
    right
    have hds := select_rows db fault w ds hs
    subst hds
    cases hq : db.query w with
    | nil => left; exact ⟨rfl, rfl, by simp [Database.Get, hs, hq]⟩
    | cons d rest => right; exact ⟨d, rest, rfl, rfl, by simp [Database.Get, hs, hq]⟩

theorem sidKid_test_false (set kid : String) (d : sqlData) :
    (Where.sidKid set kid).test d = false ↔ ¬ (d.Set = set ∧ d.KID = kid) := by
  simp only [Where.test, Bool.and_eq_false_iff, decide_eq_false_iff_not]
  tauto

theorem getKey_notFound_no_rows (json : JSON) (m : SQLManager) (fault : Option DriverFault)
    (set kid : String) (e : Error) (h : m.GetKey json fault set kid = .error e)
    (hn : e.IsNotFound = true) : ∀ d ∈ m.DB.rows, ¬ (d.Set = set ∧ d.KID = kid) := by
  unfold SQLManager.GetKey at h
  rcases get_of_select m.DB fault (.sidKid set kid) with
    ⟨se, _, hg, hne⟩ | ⟨_, hnil, hg⟩ | ⟨d, rest, _, _, hg⟩
  · simp only [hg] at h
    simp at h
    subst h
    exact absurd ((handleError_notFound se).1 hn) hne
  · intro d hd
    exact (sidKid_test_false set kid d).1 ((query_eq_nil m.DB _).1 hnil d hd)
  · simp only [hg] at h
    cases hd : decode json m.Cipher d with
    | error e2 =>
      simp [hd] at h
      subst h
      rw [decode_not_notFound json m.Cipher d e2 hd] at hn
      simp at hn
    | ok c => simp [hd] at h

theorem getKey_of_no_rows (json : JSON) (m : SQLManager) (set kid : String)
    (hq : m.DB.hasColumns [.sid, .kid, .created_at] = true)
    (hno : ∀ d ∈ m.DB.rows, ¬ (d.Set = set ∧ d.KID = kid)) :
    m.GetKey json none set kid = .error (.WithStack (.root .ErrNotFound)) := by
  have hsel : m.DB.Select none (.sidKid set kid) = .ok (m.DB.query (.sidKid set kid)) :=
    select_ok m.DB (.sidKid set kid) hq
  have hnil : m.DB.query (.sidKid set kid) = [] := by
    rw [query_eq_nil]
    intro d hd
    exact (sidKid_test_false set kid d).2 (hno d hd)
  simp [SQLManager.GetKey, Database.Get, hsel, hnil, HandleError]

theorem getKey_of_head (json : JSON) (m : SQLManager) (set kid : String)
    (hq : m.DB.hasColumns [.sid, .kid, .created_at] = true) (d : sqlData)
    (rest : List sqlData) (hd : m.DB.query (.sidKid set kid) = d :: rest) :
    m.GetKey json none set kid =
      match decode json m.Cipher d with
      | .error err => .error err
      | .ok c => .ok { Keys := [c] } := by
  have hsel : m.DB.Select none (.sidKid set kid) = .ok (m.DB.query (.sidKid set kid)) :=
    select_ok m.DB (.sidKid set kid) hq
  simp [SQLManager.GetKey, Database.Get, hsel, hd]

/-- C6: `GetKey` returns the not-found error exactly when no row has the `(set, kid)`,
in particular after `DeleteKey(set, kid)`; when the selected row fails to decrypt or to
unmarshal, `GetKey` returns that cipher or codec error, which is not the not-found
error. -/
theorem C6_getKey_notFound_iff (json : JSON) (m : SQLManager) (set kid : String)
    (hq : m.DB.hasColumns [.sid, .kid, .created_at] = true) :
    ((∃ e, m.GetKey json none set kid = .error e ∧ e.IsNotFound = true) ↔
      (∀ d ∈ m.DB.rows, ¬ (d.Set = set ∧ d.KID = kid))) ∧
    (∀ fault e, m.GetKey json fault set kid = .error e → e.IsNotFound = true →
      ∀ d ∈ m.DB.rows, ¬ (d.Set = set ∧ d.KID = kid)) ∧
    (∀ d rest msg, m.DB.query (.sidKid set kid) = d :: rest →
      m.Cipher.Decrypt d.Key = .error msg →
      m.GetKey json none set kid = .error (.WithStack (.root (.cipher msg))) ∧
      (Error.WithStack (.root (.cipher msg))).IsNotFound = false) ∧
    (∀ d rest b msg, m.DB.query (.sidKid set kid) = d :: rest →
      m.Cipher.Decrypt d.Key = .ok b → json.Unmarshal b = .error msg →
      m.GetKey json none set kid = .error (.WithStack (.root (.json msg))) ∧
      (Error.WithStack (.root (.json msg))).IsNotFound = false) ∧
    (m.DeleteKey none set kid).2.GetKey json none set kid =
      .error (.WithStack (.root .ErrNotFound)) := by
  refine ⟨⟨?_, ?_⟩, ?_, ?_, ?_, ?_⟩
  · rintro ⟨e, he, hn⟩
    exact getKey_notFound_no_rows json m none set kid e he hn
  · intro hno
    exact ⟨_, getKey_of_no_rows json m set kid hq hno, rfl⟩
  · intro fault e he hn
    exact getKey_notFound_no_rows json m fault set kid e he hn
  · intro d rest msg hd hdec
    refine ⟨?_, rfl⟩
    rw [getKey_of_head json m set kid hq d rest hd]
    simp [decode, hdec]
  · intro d rest b msg hd hdec hun
    refine ⟨?_, rfl⟩
    rw [getKey_of_head json m set kid hq d rest hd]
    simp [decode, hdec, hun]
  · have hq1 : m.DB.hasColumns (Where.sidKid set kid).cols = true := by
      unfold Database.hasColumns at hq ⊢
      cases hdb : m.DB.hydra_jwk with
      | none => simp [hdb] at hq
      | some t =>
        simp only [hdb, Where.cols] at hq ⊢
        simp only [List.all_cons, List.all_nil, Bool.and_true, Bool.and_eq_true] at hq ⊢
        exact ⟨hq.1, hq.2.1⟩
    obtain ⟨db2, hex, hrows, hcols, _⟩ := exec_delete m.DB (.sidKid set kid) hq1
    rw [deleteKey_eq m set kid db2 hex]
    apply getKey_of_no_rows
    · show db2.hasColumns [.sid, .kid, .created_at] = true
      rw [hcols]
      exact hq
    · intro d hd
      have hd2 : d ∈ db2.rows := hd
      rw [hrows, List.mem_filter] at hd2
      have := hd2.2
      simp only [Bool.not_eq_true'] at this
      exact (sidKid_test_false set kid d).1 this

/-- C6 at a concrete input: after `AddKey("set-a", k1)` on the migrated table `GetKey`
returns the key, and after `DeleteKey("set-a", "k1")` it returns the not-found error. -/
theorem C6_getKey_notFound_iff_witness :
    ((SQLManager.mk (migratedDatabase 7) markCipher).AddKey pairJSON none "set-a"
      (keyWithId "k1" "material")).2.DB.hasColumns [.sid, .kid, .created_at] = true ∧
    ((SQLManager.mk (migratedDatabase 7) markCipher).AddKey pairJSON none "set-a"
      (keyWithId "k1" "material")).2.GetKey pairJSON none "set-a" "k1" =
      .ok { Keys := [keyWithId "k1" "material"] } ∧
    ((((SQLManager.mk (migratedDatabase 7) markCipher).AddKey pairJSON none "set-a"
      (keyWithId "k1" "material")).2.DeleteKey none "set-a" "k1").2.GetKey pairJSON none
      "set-a" "k1" = .error (.WithStack (.root .ErrNotFound))) :=
  ⟨by decide, by decide,
   (C6_getKey_notFound_iff pairJSON
     ((SQLManager.mk (migratedDatabase 7) markCipher).AddKey pairJSON none "set-a"
       (keyWithId "k1" "material")).2 "set-a" "k1" (by decide)).2.2.2.2⟩

theorem getKeySetLoop_ok (json : JSON) (cipher : AEAD) (ds : List sqlData)
    (acc keys : List JSONWebKey) (h : getKeySetLoop json cipher ds acc = .ok keys) :
    ∃ ks, keys = acc ++ ks ∧ List.Forall₂ (fun d k => decode json cipher d = .ok k) ds ks := by
  induction ds generalizing acc with
  | nil =>
    simp [getKeySetLoop] at h
    exact ⟨[], by simp [h], List.Forall₂.nil⟩
  | cons d ds ih =>
    unfold getKeySetLoop at h
    cases hd : decode json cipher d with
    | error e => simp [hd] at h
    | ok c =>
      simp only [hd] at h
      obtain ⟨ks, hk, hf⟩ := ih (acc ++ [c]) h
      exact ⟨c :: ks, by simp [hk], List.Forall₂.cons hd hf⟩

theorem getKeySetLoop_error (json : JSON) (cipher : AEAD) (ds : List sqlData)
    (acc : List JSONWebKey) (d : sqlData) (hd : d ∈ ds) (e : Error)
    (he : decode json cipher d = .error e) :
    ∃ d2 ∈ ds, ∃ e2, decode json cipher d2 = .error e2 ∧
      getKeySetLoop json cipher ds acc = .error e2 := by
  induction ds generalizing acc with
  | nil => simp at hd
  | cons x ds ih =>
    cases hx : decode json cipher x with
    | error e2 =>
      exact ⟨x, by simp, e2, hx, by simp [getKeySetLoop, hx]⟩
    | ok c =>
      have hmem : d ∈ ds := by
        rcases List.mem_cons.1 hd with h | h
        · subst h
          rw [he] at hx
          simp at hx
        · exact h
      obtain ⟨d2, hd2, e2, h2, hl⟩ := ih (acc ++ [c]) hmem
      exact ⟨d2, List.mem_cons_of_mem _ hd2, e2, h2, by simp [getKeySetLoop, hx, hl]⟩

theorem decode_error_cases (json : JSON) (cipher : AEAD) (d : sqlData) (e : Error)
    (h : decode json cipher d = .error e) :
    (∃ msg, cipher.Decrypt d.Key = .error msg ∧ e = .WithStack (.root (.cipher msg))) ∨
    (∃ b msg, cipher.Decrypt d.Key = .ok b ∧ json.Unmarshal b = .error msg ∧
      e = .WithStack (.root (.json msg))) := by
  unfold decode at h
  cases hd : cipher.Decrypt d.Key with
  | error msg =>
    left
    simp [hd] at h
    exact ⟨msg, rfl, h.symm⟩
  | ok b =>
    right
    simp only [hd] at h
    cases hu : json.Unmarshal b with
    | error msg =>
      simp [hu] at h
      exact ⟨b, msg, rfl, hu, h.symm⟩
    | ok c => simp [hu] at h

theorem query_sorted (db : Database) (w : Where) :
    (db.query w).Sorted (fun a b => b.CreatedAt ≤ a.CreatedAt) := by
  haveI : IsTotal sqlData (fun a b => b.CreatedAt ≤ a.CreatedAt) :=
    ⟨fun a b => Nat.le_total b.CreatedAt a.CreatedAt⟩
  haveI : IsTrans sqlData (fun a b => b.CreatedAt ≤ a.CreatedAt) :=
    ⟨fun _ _ _ hab hbc => Nat.le_trans hbc hab⟩
  exact List.sorted_insertionSort _ _

theorem query_perm (db : Database) (w : Where) :
    (db.query w).Perm (db.rows.filter w.test) :=
  List.perm_insertionSort _ _

/-- C8: when `GetKeySet` succeeds its keys are the decoded rows of the set, one key per
row, in the order of the query, which is sorted by `created_at` descending and is a
rearrangement of the stored rows of the set; when some row of the set fails to decrypt or
to unmarshal, `GetKeySet` returns no key set, and with a working driver it returns the
cipher or codec error of a row of the set. -/
theorem C8_getKeySet_all_or_nothing (json : JSON) (m : SQLManager) (set : String)
    (hq : m.DB.hasColumns [.sid, .created_at] = true) :
    (∀ fault ks, m.GetKeySet json fault set = .ok ks →
      List.Forall₂ (fun d k => decode json m.Cipher d = .ok k)
        (m.DB.query (.sid set)) ks.Keys) ∧
    (m.DB.query (.sid set)).Sorted (fun a b => b.CreatedAt ≤ a.CreatedAt) ∧
    (m.DB.query (.sid set)).Perm (m.DB.rows.filter (fun d => decide (d.Set = set))) ∧
    (∀ d ∈ m.DB.rows, d.Set = set → ∀ e, decode json m.Cipher d = .error e →
      (∀ fault ks, m.GetKeySet json fault set ≠ .ok ks) ∧
      ∃ d2 ∈ m.DB.rows, d2.Set = set ∧
        ((∃ msg, m.Cipher.Decrypt d2.Key = .error msg ∧
            m.GetKeySet json none set = .error (.WithStack (.root (.cipher msg)))) ∨
         (∃ b msg, m.Cipher.Decrypt d2.Key = .ok b ∧ json.Unmarshal b = .error msg ∧
            m.GetKeySet json none set = .error (.WithStack (.root (.json msg)))))) := by
  refine ⟨?_, query_sorted m.DB _, ?_, ?_⟩
  · intro fault ks h
    unfold SQLManager.GetKeySet at h
    cases hs : m.DB.Select fault (.sid set) with
    | error e => simp [hs] at h
    | ok ds =>
      have hds := select_rows m.DB fault (.sid set) ds hs
      subst hds
      simp only [hs] at h
      split at h
      · simp at h
      · cases hl : getKeySetLoop json m.Cipher (m.DB.query (.sid set)) [] with
        | error e => simp [hl] at h
        | ok keys =>
          simp only [hl] at h
          split at h
          · simp at h
          · simp at h
            subst h
            obtain ⟨ks, hk, hf⟩ := getKeySetLoop_ok json m.Cipher _ [] keys hl
            simp at hk
            subst hk
            exact hf
  · have := query_perm m.DB (.sid set)
    simpa [Where.test] using this
  · intro d hd hset e he
    have hmem : d ∈ m.DB.query (.sid set) :=
      (mem_query m.DB _ d).2 ⟨hd, by simp [Where.test, hset]⟩
    constructor
    · intro fault ks h
      unfold SQLManager.GetKeySet at h
      cases hs : m.DB.Select fault (.sid set) with
      | error e => simp [hs] at h
      | ok ds =>
        have hds := select_rows m.DB fault (.sid set) ds hs
        subst hds
        obtain ⟨d2, _, e2, _, hl⟩ := getKeySetLoop_error json m.Cipher _ [] d hmem e he
        simp only [hs, hl] at h
        split at h <;> simp at h
    · obtain ⟨d2, hd2, e2, h2, hl⟩ := getKeySetLoop_error json m.Cipher _ [] d hmem e he
      have hd2r := (mem_query m.DB _ d2).1 hd2
      have hres : m.GetKeySet json none set = .error e2 := by
        have hsel : m.DB.Select none (.sid set) = .ok (m.DB.query (.sid set)) :=
          select_ok m.DB (.sid set) hq
        have hne : (m.DB.query (.sid set)).length ≠ 0 := by
          intro h0
          rw [List.length_eq_zero] at h0
          rw [h0] at hmem
          simp at hmem
        simp [SQLManager.GetKeySet, hsel, hl, hne]
      refine ⟨d2, hd2r.1, by simpa [Where.test] using hd2r.2, ?_⟩
      rcases decode_error_cases json m.Cipher d2 e2 h2 with ⟨msg, h1, h3⟩ | ⟨b, msg, h1, hu, h3⟩
      · left
        exact ⟨msg, h1, by rw [hres, h3]⟩
      · right
        exact ⟨b, msg, h1, hu, by rw [hres, h3]⟩

/-- C8 at concrete inputs: two keys added at different times come back most recent
first, and a set with a corrupt row yields the cipher error and no key set. -/
theorem C8_getKeySet_all_or_nothing_witness :
    twoKeyManager.DB.hasColumns [.sid, .created_at] = true ∧
    twoKeyManager.GetKeySet pairJSON none "set-a" =
      .ok { Keys := [keyWithId "k2" "material-2", keyWithId "k1" "material-1"] } ∧
    List.Forall₂ (fun d k => decode pairJSON twoKeyManager.Cipher d = .ok k)
      (twoKeyManager.DB.query (.sid "set-a"))
      [keyWithId "k2" "material-2", keyWithId "k1" "material-1"] ∧
    corruptManager.GetKeySet pairJSON none "set-a" =
      .error (.WithStack (.root (.cipher "cipher: malformed ciphertext"))) :=
  ⟨by decide, by decide,
   (C8_getKeySet_all_or_nothing pairJSON twoKeyManager "set-a" (by decide)).1 none
     { Keys := [keyWithId "k2" "material-2", keyWithId "k1" "material-1"] } (by decide),
   by decide⟩

theorem insert_migrated (t : Table) (hs : t.shape = migratedShape) (now : Nat)
    (v : sqlData) (t2 : Table)
    (h : t.insert now [.sid, .kid, .version, .keydata] v = .ok t2) :
    t2 = { shape := t.shape,
           rows := t.rows ++ [{ Set := v.Set, KID := v.KID, Version := v.Version,
                                CreatedAt := now, Key := v.Key }] } ∧
    ∀ old ∈ t.rows, ¬ (old.Set = v.Set ∧ old.KID = v.KID) := by
  have hfill : t.fill now [.sid, .kid, .version, .keydata] v =
      { Set := v.Set, KID := v.KID, Version := v.Version, CreatedAt := now, Key := v.Key } := by
    simp [Table.fill, hs, TableDef.dflt, migratedShape, createTable, createdAt]
  unfold Table.insert at h
  rw [hfill] at h
  split at h
  · simp at h
  · split at h
    · simp at h
    · split at h
      · simp at h
      · split at h
        · simp at h
        · rename_i _ _ _ hc
          simp only [Except.ok.injEq] at h
          refine ⟨h.symm, ?_⟩
          intro old hold hm
          apply hc
          simp only [Table.conflicts, hs, migratedShape, TableDef.keyOf, List.map,
            sqlData.cell, Bool.and_eq_true, List.any_eq_true, decide_eq_true_eq]
          refine ⟨by decide, old, hold, ?_⟩
          rw [hm.1, hm.2]

theorem migrated_shape (db : Database) (hm : db.migrated = true) :
    ∃ t, db.hydra_jwk = some t ∧ t.shape = migratedShape := by
  unfold Database.migrated at hm
  cases hdb : db.hydra_jwk with
  | none => simp [hdb] at hm
  | some t =>
    simp only [hdb, decide_eq_true_eq] at hm
    exact ⟨t, rfl, hm⟩

theorem addKey_ok_spec (json : JSON) (m : SQLManager) (fault : Option DriverFault)
    (set : String) (k : JSONWebKey) (hm : m.DB.migrated = true)
    (h : (m.AddKey json fault set k).1 = none) :
    ∃ out enc t, json.Marshal k = .ok out ∧ m.Cipher.Encrypt out = .ok enc ∧
      m.DB.hydra_jwk = some t ∧ t.shape = migratedShape ∧
      (∀ old ∈ t.rows, ¬ (old.Set = set ∧ old.KID = k.KeyID)) ∧
      m.AddKey json fault set k = (none, { m with DB := { m.DB with hydra_jwk := some {
        shape := migratedShape,
        rows := t.rows ++ [{ Set := set, KID := k.KeyID, Version := 0,
                             CreatedAt := m.DB.now, Key := enc }] } } }) := by
  obtain ⟨t, ht, hs⟩ := migrated_shape m.DB hm
  unfold SQLManager.AddKey at h ⊢
  cases hj : json.Marshal k with
  | error e => simp [hj] at h
  | ok out =>
    simp only [hj] at h ⊢
    cases hc : m.Cipher.Encrypt out with
    | error e => simp [hc] at h
    | ok enc =>
      simp only [hc] at h ⊢
      cases fault with
      | some f => simp [Database.Exec] at h
      | none =>
        simp only [Database.Exec, insertStmt, Database.run, ht] at h ⊢
        cases hi : t.insert m.DB.now [.sid, .kid, .version, .keydata]
            { Set := set, KID := k.KeyID, Version := 0, CreatedAt := 0, Key := enc } with
        | error e => simp [hi] at h
        | ok t2 =>
          obtain ⟨h2, hno⟩ := insert_migrated t hs m.DB.now _ t2 hi
          refine ⟨out, enc, t, by first | exact hj | rfl, hc, by first | exact ht | rfl, hs, hno, ?_⟩
          simp only [hi]
          rw [h2, hs]

theorem query_append_single (db : Database) (t : Table) (r : sqlData) (w : Where)
    (ht : db.hydra_jwk = some { shape := t.shape, rows := t.rows ++ [r] })
    (hr : w.test r = true) (hno : ∀ old ∈ t.rows, w.test old = false) :
    db.query w = [r] := by
  have hf : t.rows.filter w.test = [] := by
    rw [List.filter_eq_nil_iff]
    intro a ha
    simp [hno a ha]
  simp [Database.query, Database.rows, ht, List.filter_append, hf, hr]

/-- C1 as amended: on the table shape the three migrations produce, with a cipher whose `Decrypt` undoes `Encrypt` and a codec
whose `Unmarshal` undoes `Marshal`, whenever `AddKey(set, k)` returns no error a following
`GetKey(set, k.KeyID)` returns without error a key set holding exactly the key `k`. -/
theorem C1_addKey_getKey_roundtrip_amended (json : JSON) (m : SQLManager)
    (fault : Option DriverFault) (set : String) (k : JSONWebKey)
    (hm : m.DB.migrated = true)
    (hc : ∀ b s, m.Cipher.Encrypt b = .ok s → m.Cipher.Decrypt s = .ok b)
    (hj : ∀ key b, json.Marshal key = .ok b → json.Unmarshal b = .ok key)
    (hadd : (m.AddKey json fault set k).1 = none) :
    (m.AddKey json fault set k).2.GetKey json none set k.KeyID = .ok { Keys := [k] } := by
  obtain ⟨out, enc, t, hmar, henc, ht, hs, hno, heq⟩ :=
    addKey_ok_spec json m fault set k hm hadd
  rw [heq]
  have hq : ({ m with DB := { m.DB with hydra_jwk := some {
        shape := migratedShape,
        rows := t.rows ++ [{ Set := set, KID := k.KeyID, Version := 0,
                             CreatedAt := m.DB.now, Key := enc }] } } } : SQLManager).DB.hasColumns
      [.sid, .kid, .created_at] = true := by
    simp [Database.hasColumns]
    decide
  have hquery := query_append_single
    ({ m.DB with hydra_jwk := some {
        shape := migratedShape,
        rows := t.rows ++ [{ Set := set, KID := k.KeyID, Version := 0,
                             CreatedAt := m.DB.now, Key := enc }] } })
    { shape := migratedShape, rows := t.rows }
    { Set := set, KID := k.KeyID, Version := 0, CreatedAt := m.DB.now, Key := enc }
    (.sidKid set k.KeyID) rfl (by simp [Where.test])
    (fun old hold => (sidKid_test_false set k.KeyID old).2 (hno old hold))
  rw [getKey_of_head json _ set k.KeyID hq _ [] hquery]
  simp [decode, hc out enc henc, hj k out hmar]

theorem markCipher_roundtrip (b s : String) (h : markCipher.Encrypt b = .ok s) :
    markCipher.Decrypt s = .ok b := by
  simp only [markCipher, Except.ok.injEq] at h
  subst h
  simp [markCipher]

theorem takeWhile_sep (a b : List Char) (h : sep ∉ a) :
    (a ++ sep :: b).takeWhile (fun c => !decide (c = sep)) = a := by
  induction a with
  | nil => simp [List.takeWhile]
  | cons x xs ih =>
    have hx : x ≠ sep := fun hx => h (by simp [hx])
    have hxs : sep ∉ xs := fun hm => h (by simp [hm])
    simp [List.takeWhile, hx, ih hxs]

theorem dropWhile_sep (a b : List Char) (h : sep ∉ a) :
    (a ++ sep :: b).dropWhile (fun c => !decide (c = sep)) = sep :: b := by
  induction a with
  | nil => simp [List.dropWhile]
  | cons x xs ih =>
    have hx : x ≠ sep := fun hx => h (by simp [hx])
    have hxs : sep ∉ xs := fun hm => h (by simp [hm])
    simp [List.dropWhile, hx, ih hxs]

theorem pairJSON_roundtrip (key : JSONWebKey) (b : String)
    (h : pairJSON.Marshal key = .ok b) : pairJSON.Unmarshal b = .ok key := by
  simp only [pairJSON] at h ⊢
  split at h
  · rename_i hcond
    simp only [Except.ok.injEq] at h
    subst h
    obtain ⟨ha, hu, hs⟩ := hcond
    simp only [takeWhile_sep _ _ hs, dropWhile_sep _ _ hs, List.tail_cons]
    cases key
    simp_all
  · simp at h

/-- C1 as amended, at a concrete input: the toy cipher and codec undo themselves, `AddKey` of a key
into the migrated, empty table succeeds and `GetKey` returns exactly that key. -/
theorem C1_addKey_getKey_roundtrip_amended_witness :
    emptyManager.DB.migrated = true ∧
    (emptyManager.AddKey pairJSON none "set-a" (keyWithId "k1" "material-1")).1 = none ∧
    (emptyManager.AddKey pairJSON none "set-a" (keyWithId "k1" "material-1")).2.GetKey
      pairJSON none "set-a" "k1" = .ok { Keys := [keyWithId "k1" "material-1"] } :=
  ⟨by decide, by decide,
   C1_addKey_getKey_roundtrip_amended pairJSON emptyManager none "set-a"
     (keyWithId "k1" "material-1") (by decide) markCipher_roundtrip pairJSON_roundtrip
     (by decide)⟩

theorem addKeySet_error_unchanged (json : JSON) (m : SQLManager) (f : TxFaults)
    (set : String) (keys : JSONWebKeySet) (e : Error)
    (h : (m.AddKeySet json f set keys).1 = some e) :
    (m.AddKeySet json f set keys).2 = m := by
  unfold SQLManager.AddKeySet at h ⊢
  cases hb : f.begin with
  | some err => simp
  | none =>
    simp only [hb] at h ⊢
    cases hl : addKeySetLoop json m.Cipher f set 0 keys.Keys m.DB with
    | error err => simp
    | ok tx =>
      simp only [hl] at h ⊢
      cases hc : f.commit with
      | some err => simp
      | none => simp [hc] at h

theorem addKeySetLoop_encrypt_fails (json : JSON) (cipher : AEAD) (f : TxFaults)
    (set : String) (k : JSONWebKey) (b msg : String) (hm : json.Marshal k = .ok b)
    (he : cipher.Encrypt b = .error msg) (pre post : List JSONWebKey) (i : Nat)
    (tx : Database) :
    ∃ e, addKeySetLoop json cipher f set i (pre ++ k :: post) tx = .error e := by
  induction pre generalizing i tx with
  | nil => simp [addKeySetLoop, hm, he]
  | cons x xs ih =>
    simp only [List.cons_append, addKeySetLoop]
    cases hx : json.Marshal x with
    | error err => simp
    | ok out =>
      simp only []
      cases hc : cipher.Encrypt out with
      | error err => simp
      | ok enc =>
        simp only []
        cases hi : tx.Exec (f.exec i) (insertStmt set x enc) with
        | error err => simp
        | ok tx2 => exact ih (i + 1) tx2

/-- C2: whenever `AddKeySet` returns an error (whatever step failed and whatever the
rollback did), the database is exactly the database before the call, so no row of the
batch persists; in particular, when the encryption of
the second of three keys fails, `AddKeySet` returns an error and, for a set that had no
rows, a following `GetKeySet` returns the not-found error. -/
theorem C2_addKeySet_atomic (json : JSON) (m : SQLManager) (f : TxFaults) (set : String)
    (keys : JSONWebKeySet) (e : Error)
    (herr : (m.AddKeySet json f set keys).1 = some e) :
    (m.AddKeySet json f set keys).2.DB = m.DB ∧
    (m.AddKeySet json f set keys).2.DB.rows = m.DB.rows ∧
    (m.DB.hasColumns [.sid, .created_at] = true → (∀ d ∈ m.DB.rows, d.Set ≠ set) →
      (m.AddKeySet json f set keys).2.GetKeySet json none set =
        .error (.Wrap (.root .ErrNotFound) "")) ∧
    (∀ (m2 : SQLManager) (f2 : TxFaults) (k1 k2 k3 : JSONWebKey) (b msg : String),
      json.Marshal k2 = .ok b → m2.Cipher.Encrypt b = .error msg →
      (m2.AddKeySet json f2 set { Keys := [k1, k2, k3] }).1 ≠ none) := by
  have hsame := addKeySet_error_unchanged json m f set keys e herr
  refine ⟨by rw [hsame], by rw [hsame], ?_, ?_⟩
  · intro hq hno
    rw [hsame]
    exact getKeySet_of_no_rows json m set hq hno
  · intro m2 f2 k1 k2 k3 b msg hm he
    unfold SQLManager.AddKeySet
    cases hb : f2.begin with
    | some err => simp
    | none =>
      obtain ⟨e3, h3⟩ := addKeySetLoop_encrypt_fails json m2.Cipher f2 set k2 b msg hm he
        [k1] [k3] 0 m2.DB
      simp only [List.cons_append, List.nil_append] at h3
      simp [h3]

/-- C2 at a concrete input: three keys, encryption of the second one forced to fail; the
call returns the cipher error, the database is as before and `GetKeySet` reports
not-found. -/
theorem C2_addKeySet_atomic_witness :
    (failingManager.AddKeySet pairJSON noTxFaults "set-a" threeKeys).1 =
      some (.WithStack (.root (.cipher "cipher: forced failure"))) ∧
    (failingManager.AddKeySet pairJSON noTxFaults "set-a" threeKeys).2.DB =
      migratedDatabase 7 ∧
    (failingManager.AddKeySet pairJSON noTxFaults "set-a" threeKeys).2.GetKeySet pairJSON
      none "set-a" = .error (.Wrap (.root .ErrNotFound) "") :=
  ⟨by decide,
   (C2_addKeySet_atomic pairJSON failingManager noTxFaults "set-a" threeKeys
     (.WithStack (.root (.cipher "cipher: forced failure"))) (by decide)).1,
   (C2_addKeySet_atomic pairJSON failingManager noTxFaults "set-a" threeKeys
     (.WithStack (.root (.cipher "cipher: forced failure"))) (by decide)).2.2.1
     (by decide) (by decide)⟩

theorem rollbackThen_some (f : TxFaults) (re : DriverFault) (hre : f.rollback = some re)
    (err : Root) (otherwise : Error) :
    rollbackThen f err otherwise = .Wrap (.root err) re.msg := by
  simp [rollbackThen, hre]

theorem rollbackThen_none (f : TxFaults) (hre : f.rollback = none)
    (err : Root) (otherwise : Error) : rollbackThen f err otherwise = otherwise := by
  simp [rollbackThen, hre]

theorem wrap_ne_handleError (trig : SqlErr) (msg : String) :
    Error.Wrap (.root (.sql trig)) msg ≠ HandleError trig := by
  cases trig <;> simp [HandleError]

theorem addKeySetLoop_rollback (json : JSON) (cipher : AEAD) (f : TxFaults)
    (re : DriverFault) (hre : f.rollback = some re) (set : String)
    (keys : List JSONWebKey) (i : Nat) (tx : Database) :
    (∀ tx2, addKeySetLoop json cipher f set i keys tx = .ok tx2 →
      addKeySetLoop json cipher { f with rollback := none } set i keys tx = .ok tx2) ∧
    (∀ e, addKeySetLoop json cipher f set i keys tx = .error e →
      ∃ trig e0, e = .Wrap (.root trig) re.msg ∧
        addKeySetLoop json cipher { f with rollback := none } set i keys tx = .error e0 ∧
        (e0 = .WithStack (.root trig) ∨ ∃ se, trig = .sql se ∧ e0 = HandleError se)) := by
  induction keys generalizing i tx with
  | nil =>
    constructor
    · intro tx2 h
      simpa [addKeySetLoop] using h
    · intro e h
      simp [addKeySetLoop] at h
  | cons k rest ih =>
    unfold addKeySetLoop
    cases hm : json.Marshal k with
    | error err =>
      constructor
      · intro tx2 h
        simp at h
      · intro e h
        simp only [Except.error.injEq] at h
        subst h
        exact ⟨.json err, .WithStack (.root (.json err)),
          rollbackThen_some f re hre _ _, by simp [rollbackThen], Or.inl rfl⟩
    | ok out =>
      simp only []
      cases hc : cipher.Encrypt out with
      | error err =>
        constructor
        · intro tx2 h
          simp at h
        · intro e h
          simp only [Except.error.injEq] at h
          subst h
          exact ⟨.cipher err, .WithStack (.root (.cipher err)),
            rollbackThen_some f re hre _ _, by simp [rollbackThen], Or.inl rfl⟩
      | ok enc =>
        simp only []
        cases hi : tx.Exec (f.exec i) (insertStmt set k enc) with
        | error err =>
          constructor
          · intro tx2 h
            simp at h
          · intro e h
            simp only [Except.error.injEq] at h
            subst h
            exact ⟨.sql err, HandleError err,
              rollbackThen_some f re hre _ _, by simp [rollbackThen], Or.inr ⟨err, rfl, rfl⟩⟩
        | ok tx2 =>
          simp only []
          exact ih (i + 1) tx2

theorem insert_migrated_eq (t : Table) (hs : t.shape = migratedShape) (now : Nat)
    (v : sqlData) :
    t.insert now [.sid, .kid, .version, .keydata] v =
      if 255 < v.Set.length ∨ 255 < v.KID.length then .error .valueTooLong
      else if ∃ old ∈ t.rows, old.Set = v.Set ∧ old.KID = v.KID then
        .error .uniqueViolation
      else .ok { shape := migratedShape,
                 rows := t.rows ++ [{ Set := v.Set, KID := v.KID, Version := v.Version,
                                      CreatedAt := now, Key := v.Key }] } := by
  have hfill : t.fill now [.sid, .kid, .version, .keydata] v =
      { Set := v.Set, KID := v.KID, Version := v.Version, CreatedAt := now, Key := v.Key } := by
    simp [Table.fill, hs, TableDef.dflt, migratedShape, createTable, createdAt]
  have hlong : ∀ r : sqlData, t.shape.tooLong r =
      (decide (255 < r.Set.length) || decide (255 < r.KID.length)) := by
    intro r
    simp [TableDef.tooLong, hs, migratedShape, createTable, createdAt, sqlData.cell]
  have hconf : ∀ r : sqlData, t.conflicts r =
      decide (∃ old ∈ t.rows, old.Set = r.Set ∧ old.KID = r.KID) := by
    intro r
    rw [Bool.eq_iff_iff]
    simp [Table.conflicts, hs, migratedShape, TableDef.keyOf, sqlData.cell]
  have hcols : (List.all [ColName.sid, .kid, .version, .keydata] t.shape.hasColumn) = true := by
    rw [hs]; decide
  have hnn : (t.shape.columns.any (fun col => col.notNull && col.dflt.isNone &&
      !decide (col.name ∈ [ColName.sid, .kid, .version, .keydata]))) = false := by
    rw [hs]; decide
  unfold Table.insert
  rw [hfill, hlong, hconf, hcols, hnn, hs]
  simp only [Bool.not_true, Bool.false_eq_true, if_false, Bool.or_eq_true, decide_eq_true_eq]

theorem query_head_of_latest (db : Database) (w : Where) (d : sqlData)
    (hd : d ∈ db.rows) (ht : w.test d = true)
    (hlate : ∀ d2 ∈ db.rows, w.test d2 = true → d2 ≠ d → d2.CreatedAt < d.CreatedAt) :
    ∃ rest, db.query w = d :: rest := by
  have hmem : d ∈ db.query w := (mem_query db w d).2 ⟨hd, ht⟩
  have hsorted := query_sorted db w
  cases hq : db.query w with
  | nil => rw [hq] at hmem; simp at hmem
  | cons x rest =>
    rw [hq] at hmem hsorted
    by_cases hx : x = d
    · exact ⟨rest, by rw [hx]⟩
    · exfalso
      have hdr : d ∈ rest := by
        rcases List.mem_cons.1 hmem with h | h
        · exact absurd h.symm hx
        · exact h
      have h1 : d.CreatedAt ≤ x.CreatedAt := List.rel_of_sorted_cons hsorted d hdr
      have hxq : x ∈ db.query w := by rw [hq]; simp
      have hxr := (mem_query db w x).1 hxq
      have h2 := hlate x hxr.1 hxr.2 hx
      omega

theorem addKey_ok_len (json : JSON) (m : SQLManager) (fault : Option DriverFault)
    (set : String) (k : JSONWebKey) (hm : m.DB.migrated = true)
    (h : (m.AddKey json fault set k).1 = none) :
    ¬ (255 < set.length ∨ 255 < k.KeyID.length) := by
  obtain ⟨t, ht, hs⟩ := migrated_shape m.DB hm
  unfold SQLManager.AddKey at h
  cases hj : json.Marshal k with
  | error e => simp [hj] at h
  | ok out =>
    simp only [hj] at h
    cases hc : m.Cipher.Encrypt out with
    | error e => simp [hc] at h
    | ok enc =>
      simp only [hc] at h
      cases fault with
      | some f => simp [Database.Exec] at h
      | none =>
        simp only [Database.Exec, insertStmt, Database.run, ht, insert_migrated_eq t hs] at h
        intro hlen
        simp [hlen] at h

theorem addKey_conflict (json : JSON) (m : SQLManager) (set : String) (k : JSONWebKey)
    (t : Table) (ht : m.DB.hydra_jwk = some t) (hs : t.shape = migratedShape)
    (hlen : ¬ (255 < set.length ∨ 255 < k.KeyID.length))
    (hex : ∃ old ∈ t.rows, old.Set = set ∧ old.KID = k.KeyID) :
    (m.AddKey json none set k).2 = m ∧ (m.AddKey json none set k).1 ≠ none ∧
    ∀ out enc, json.Marshal k = .ok out → m.Cipher.Encrypt out = .ok enc →
      (m.AddKey json none set k).1 = some (HandleError .uniqueViolation) := by
  unfold SQLManager.AddKey
  cases hj : json.Marshal k with
  | error e => simp
  | ok out =>
    simp only []
    cases hc : m.Cipher.Encrypt out with
    | error e =>
      simp only [ne_eq, reduceCtorEq, not_false_eq_true, true_and, Except.ok.injEq]
      intro out2 enc ho he
      subst ho
      rw [hc] at he
      simp at he
    | ok enc =>
      simp only [Database.Exec, insertStmt, Database.run, ht, insert_migrated_eq t hs]
      simp [hlen, hex]

/-- C4 as amended: on the migrated table the primary key `(sid, kid)` admits one row per
`(set, id)`: after `AddKey(set, k1)` succeeded, a later `AddKey(set, k2)` with the same id
returns an error (the unique violation conflict when `k2` marshals and encrypts), leaves
the database with the single row of `k1`, and `GetKey(set, id)` returns `k1`; and on any
table that does hold several rows for `(set, id)`, `GetKey` returns the key of the row
with the strictly latest `created_at`. -/
theorem C4_most_recent_wins_amended (json : JSON) (m : SQLManager) (set : String)
    (k1 k2 : JSONWebKey) (dt : Nat)
    (hm : m.DB.migrated = true)
    (hc : ∀ b s, m.Cipher.Encrypt b = .ok s → m.Cipher.Decrypt s = .ok b)
    (hj : ∀ key b, json.Marshal key = .ok b → json.Unmarshal b = .ok key)
    (hid : k2.KeyID = k1.KeyID)
    (h1 : (m.AddKey json none set k1).1 = none) :
    (((m.AddKey json none set k1).2.later dt).AddKey json none set k2).1 ≠ none ∧
    (∀ out enc, json.Marshal k2 = .ok out → m.Cipher.Encrypt out = .ok enc →
      (((m.AddKey json none set k1).2.later dt).AddKey json none set k2).1 =
        some (HandleError .uniqueViolation)) ∧
    (((m.AddKey json none set k1).2.later dt).AddKey json none set k2).2.DB =
      ((m.AddKey json none set k1).2.later dt).DB ∧
    ((((m.AddKey json none set k1).2.later dt).AddKey json none set k2).2.DB.rows.filter
      (fun d => decide (d.Set = set ∧ d.KID = k1.KeyID))).length = 1 ∧
    (((m.AddKey json none set k1).2.later dt).AddKey json none set k2).2.GetKey json none
      set k1.KeyID = .ok { Keys := [k1] } ∧
    (∀ (m3 : SQLManager) (kid : String) (d : sqlData) (k : JSONWebKey),
      m3.DB.hasColumns [.sid, .kid, .created_at] = true →
      d ∈ m3.DB.rows → d.Set = set → d.KID = kid →
      (∀ d2 ∈ m3.DB.rows, d2.Set = set → d2.KID = kid → d2 ≠ d →
        d2.CreatedAt < d.CreatedAt) →
      decode json m3.Cipher d = .ok k →
      m3.GetKey json none set kid = .ok { Keys := [k] }) := by
  obtain ⟨out, enc, t, hmar, henc, ht, hs, hno, heq⟩ :=
    addKey_ok_spec json m none set k1 hm h1
  have hlen := addKey_ok_len json m none set k1 hm h1
  rw [heq]
  -- the state before the second call
  have ht2 : (SQLManager.later { m with DB := { m.DB with hydra_jwk := some {
        shape := migratedShape,
        rows := t.rows ++ [{ Set := set, KID := k1.KeyID, Version := 0,
                             CreatedAt := m.DB.now, Key := enc }] } } } dt).DB.hydra_jwk =
      some { shape := migratedShape,
             rows := t.rows ++ [{ Set := set, KID := k1.KeyID, Version := 0,
                                  CreatedAt := m.DB.now, Key := enc }] } := rfl
  have hconf := addKey_conflict json _ set k2 _ ht2 rfl (by rw [hid]; exact hlen)
    ⟨{ Set := set, KID := k1.KeyID, Version := 0, CreatedAt := m.DB.now, Key := enc },
      by simp, rfl, hid.symm⟩
  obtain ⟨hsame, hne, hunique⟩ := hconf
  have hquery := query_append_single
    (SQLManager.later { m with DB := { m.DB with hydra_jwk := some {
        shape := migratedShape,
        rows := t.rows ++ [{ Set := set, KID := k1.KeyID, Version := 0,
                             CreatedAt := m.DB.now, Key := enc }] } } } dt).DB
    { shape := migratedShape, rows := t.rows }
    { Set := set, KID := k1.KeyID, Version := 0, CreatedAt := m.DB.now, Key := enc }
    (.sidKid set k1.KeyID) rfl (by simp [Where.test])
    (fun old hold => (sidKid_test_false set k1.KeyID old).2 (hno old hold))
  refine ⟨hne, hunique, by rw [hsame], ?_, ?_, ?_⟩
  · rw [hsame]
    simp [Database.rows, SQLManager.later, Database.advance, List.filter_append]
    intro a ha hs1 hk1
    exact hno a ha ⟨hs1, hk1⟩
  · rw [hsame]
    have hq : (SQLManager.later { m with DB := { m.DB with hydra_jwk := some {
        shape := migratedShape,
        rows := t.rows ++ [{ Set := set, KID := k1.KeyID, Version := 0,
                             CreatedAt := m.DB.now, Key := enc }] } } } dt).DB.hasColumns
        [.sid, .kid, .created_at] = true := by
      simp [Database.hasColumns, SQLManager.later, Database.advance]
      decide
    rw [getKey_of_head json _ set k1.KeyID hq _ [] hquery]
    have hdec : (SQLManager.later { m with DB := { m.DB with hydra_jwk := some {
        shape := migratedShape,
        rows := t.rows ++ [{ Set := set, KID := k1.KeyID, Version := 0,
                             CreatedAt := m.DB.now, Key := enc }] } } } dt).Cipher =
        m.Cipher := rfl
    simp [decode, hdec, hc out enc henc, hj k1 out hmar]
  · intro m3 kid d k hq hd hset hkid hlate hdecode
    obtain ⟨rest, hhead⟩ := query_head_of_latest m3.DB (.sidKid set kid) d hd
      (by simp [Where.test, hset, hkid])
      (fun d2 hd2 ht2 hne2 => by
        simp only [Where.test, Bool.and_eq_true, decide_eq_true_eq] at ht2
        exact hlate d2 hd2 ht2.1 ht2.2 hne2)
    rw [getKey_of_head json m3 set kid hq d rest hhead, hdecode]

/-- C4 as amended, at concrete inputs: the second `AddKey` for `("set-a", "k1")` on the
migrated table is rejected and `GetKey` keeps returning the first key; on a table without
the primary key both rows exist and `GetKey` returns the later one. -/
theorem C4_most_recent_wins_amended_witness :
    emptyManager.DB.migrated = true ∧
    (emptyManager.AddKey pairJSON none "set-a" (keyWithId "k1" "old")).1 = none ∧
    (((emptyManager.AddKey pairJSON none "set-a" (keyWithId "k1" "old")).2.later 1).AddKey
      pairJSON none "set-a" (keyWithId "k1" "new")).2.GetKey pairJSON none "set-a" "k1" =
      .ok { Keys := [keyWithId "k1" "old"] } ∧
    unkeyedTwice.GetKey pairJSON none "set-a" "k1" = .ok { Keys := [keyWithId "k1" "new"] } :=
  ⟨by decide, by decide,
   (C4_most_recent_wins_amended pairJSON emptyManager "set-a" (keyWithId "k1" "old")
     (keyWithId "k1" "new") 1 (by decide) markCipher_roundtrip pairJSON_roundtrip rfl
     (by decide)).2.2.2.2.1,
   (C4_most_recent_wins_amended pairJSON emptyManager "set-a" (keyWithId "k1" "old")
     (keyWithId "k1" "new") 1 (by decide) markCipher_roundtrip pairJSON_roundtrip rfl
     (by decide)).2.2.2.2.2 unkeyedTwice "k1"
     { Set := "set-a", KID := "k1", Version := 0, CreatedAt := 8, Key := "ek1:new" }
     (keyWithId "k1" "new") (by decide) (by decide) rfl rfl (by decide) (by decide)⟩

/-- C4 as stated fails: on the migrated table the second `AddKey` for `("set-a", "k1")`
returns the conflict error, one row remains, and `GetKey` returns the first key, not the
later one. -/
theorem C4_counterexample :
    (emptyManager.AddKey pairJSON none "set-a" (keyWithId "k1" "old")).1 = none ∧
    (afterFirstAdd.AddKey pairJSON none "set-a" (keyWithId "k1" "new")).1 =
      some (.Wrap (.root .ErrUniqueViolation)
        "duplicate key value violates unique constraint") ∧
    ¬ (((afterFirstAdd.AddKey pairJSON none "set-a" (keyWithId "k1" "new")).2.DB.rows.filter
          (fun d => decide (d.Set = "set-a" ∧ d.KID = "k1"))).length = 2 ∧
       (afterFirstAdd.AddKey pairJSON none "set-a" (keyWithId "k1" "new")).2.GetKey pairJSON
          none "set-a" "k1" = .ok { Keys := [keyWithId "k1" "new"] }) := by
  decide

theorem run_records (db : Database) (s : Stmt) (db2 : Database) (h : db.run s = .ok db2) :
    db2.records = db.records := by
  cases s with
  | createTableIfNotExists d =>
    simp only [Database.run] at h
    cases hdb : db.hydra_jwk <;> simp [hdb] at h <;> subst h <;> rfl
  | dropTable =>
    simp only [Database.run] at h
    cases hdb : db.hydra_jwk <;> simp [hdb] at h
    subst h; rfl
  | dropTableIfExists =>
    simp only [Database.run, Except.ok.injEq] at h
    subst h; rfl
  | addColumn c =>
    simp only [Database.run] at h
    cases hdb : db.hydra_jwk with
    | none => simp [hdb] at h
    | some t =>
      simp only [hdb] at h
      split at h
      · simp at h
      · split at h
        · simp at h
        · simp only [Except.ok.injEq] at h
          subst h; rfl
  | dropColumn c =>
    simp only [Database.run] at h
    cases hdb : db.hydra_jwk with
    | none => simp [hdb] at h
    | some t =>
      simp only [hdb] at h
      split at h
      · simp at h
      · simp only [Except.ok.injEq] at h
        subst h; rfl
  | delete w =>
    simp only [Database.run] at h
    cases hdb : db.hydra_jwk with
    | none => simp [hdb] at h
    | some t =>
      simp only [hdb] at h
      split at h
      · simp at h
      · simp only [Except.ok.injEq] at h
        subst h; rfl
  | insert cols v =>
    simp only [Database.run] at h
    cases hdb : db.hydra_jwk with
    | none => simp [hdb] at h
    | some t =>
      simp only [hdb] at h
      cases hi : t.insert db.now cols v with
      | error e => simp [hi] at h
      | ok t2 =>
        simp only [hi, Except.ok.injEq] at h
        subst h; rfl

theorem runQueries_records (qs : List Stmt) (db db2 : Database)
    (h : runQueries db qs = .ok db2) : db2.records = db.records := by
  induction qs generalizing db with
  | nil =>
    simp only [runQueries, Except.ok.injEq] at h
    subst h; rfl
  | cons s rest ih =>
    unfold runQueries at h
    cases hr : db.run s with
    | error e => simp [hr] at h
    | ok db1 =>
      simp only [hr] at h
      rw [ih db1 h, run_records db s db1 hr]

theorem applyPlanned_fail (table : String) (flt : String → Option DriverFault)
    (plan : List (Migration × List Stmt)) (a : Nat) (db : Database) (n : Nat)
    (err : Error) (db2 : Database)
    (h : applyPlanned table .Up flt plan a db = ((n, some err), db2)) :
    a ≤ n ∧ n - a < plan.length ∧
    db2.records = db.records ++ (plan.take (n - a)).map (fun p => (table, p.1.Id)) ∧
    ∃ p se, plan[n - a]? = some p ∧ err = .root (.TxError p.1.Id se) := by
  induction plan generalizing a db with
  | nil => simp [applyPlanned] at h
  | cons p rest ih =>
    obtain ⟨mg, qs⟩ := p
    unfold applyPlanned at h
    cases hf : flt mg.Id with
    | some f =>
      simp only [hf, Prod.mk.injEq, Option.some.injEq] at h
      obtain ⟨⟨hn, he⟩, hd⟩ := h
      subst hn hd
      exact ⟨le_refl _, by simp, by simp, (mg, qs), .fault f, by simp, he.symm⟩
    | none =>
      simp only [hf] at h
      cases hr : runQueries db qs with
      | error e =>
        simp only [hr, Prod.mk.injEq, Option.some.injEq] at h
        obtain ⟨⟨hn, he⟩, hd⟩ := h
        subst hn hd
        exact ⟨le_refl _, by simp, by simp, (mg, qs), e, by simp, he.symm⟩
      | ok db1 =>
        simp only [hr] at h
        obtain ⟨h1, h2, h3, p, se, h4, h5⟩ := ih (a + 1) _ h
        have hk : n - a = (n - (a + 1)) + 1 := by omega
        refine ⟨by omega, by simp only [List.length_cons]; omega, ?_, p, se, ?_, h5⟩
        · rw [h3, hk, List.take_succ_cons]
          simp [record, runQueries_records qs db db1 hr]
        · rw [hk, List.getElem?_cons_succ]
          exact h4

/-- C5 as amended: when a migration step fails after `n` earlier steps were applied in
this run, the run stops there (exactly the first `n` planned steps are recorded) and
`CreateSchemas` returns the count 0 together with the error of the failed step wrapped
with a text that reports `n`; the number `n` is carried by the error text, not by the
returned count. -/
theorem C5_createSchemas_failure_amended (m : SQLManager)
    (flt : String → Option DriverFault) (n : Nat) (err : Error) (db : Database)
    (h : migrate.Exec "hydra_jwk_migration" m.DB flt Migrations .Up = ((n, some err), db)) :
    m.CreateSchemas flt =
      ((0, some (.Wrap err
        ("Could not migrate sql schema, applied " ++ toString n ++ " Migrations"))),
       { m with DB := db }) ∧
    (Error.Wrap err
      ("Could not migrate sql schema, applied " ++ toString n ++ " Migrations")).Cause =
      err.Cause ∧
    (Error.Wrap err
      ("Could not migrate sql schema, applied " ++ toString n ++ " Migrations")).Message =
      "Could not migrate sql schema, applied " ++ toString n ++ " Migrations" ++ ": " ++
        err.Message ∧
    n < (PlanMigration "hydra_jwk_migration" m.DB Migrations .Up 0).length ∧
    db.records = m.DB.records ++
      ((PlanMigration "hydra_jwk_migration" m.DB Migrations .Up 0).take n).map
        (fun p => ("hydra_jwk_migration", p.1.Id)) ∧
    ∃ p se, (PlanMigration "hydra_jwk_migration" m.DB Migrations .Up 0)[n]? = some p ∧
      err = .root (.TxError p.1.Id se) := by
  have hfail := applyPlanned_fail "hydra_jwk_migration" flt
    (PlanMigration "hydra_jwk_migration" m.DB Migrations .Up 0) 0 m.DB n err db h
  simp only [Nat.sub_zero] at hfail
  refine ⟨?_, rfl, rfl, hfail.2.1, hfail.2.2.1, hfail.2.2.2⟩
  unfold SQLManager.CreateSchemas
  rw [h]

/-- C5 as amended, at a concrete input: on a fresh database the driver fails while step 2
runs; one step was applied, the returned count is 0 and the text reports 1. -/
theorem C5_createSchemas_failure_amended_witness :
    migrate.Exec "hydra_jwk_migration" (freshDatabase 3) failsAtTwo Migrations .Up =
      ((1, some (.root (.TxError "2" (.fault { msg := "driver: bad connection" })))),
       { hydra_jwk := some { shape := createTable, rows := [] },
         records := [("hydra_jwk_migration", "1")], now := 3 }) ∧
    ((SQLManager.mk (freshDatabase 3) markCipher).CreateSchemas failsAtTwo).1 =
      (0, some (.Wrap (.root (.TxError "2" (.fault { msg := "driver: bad connection" })))
        ("Could not migrate sql schema, applied " ++ toString 1 ++ " Migrations"))) :=
  ⟨by decide,
   congrArg Prod.fst
     (C5_createSchemas_failure_amended (SQLManager.mk (freshDatabase 3) markCipher)
       failsAtTwo 1 (.root (.TxError "2" (.fault { msg := "driver: bad connection" })))
       { hydra_jwk := some { shape := createTable, rows := [] },
         records := [("hydra_jwk_migration", "1")], now := 3 } (by decide)).1⟩

/-- C5 as stated fails: on a database where the table already has the `created_at`
column and no migration is recorded, step 1 is applied and step 2 fails, so the run
applied one step, but `CreateSchemas` returns the count 0, not 1. -/
theorem C5_counterexample :
    (migrate.Exec "hydra_jwk_migration" (preparedDatabase 3) noFault Migrations .Up).1 =
      (1, some (.root (.TxError "2" .duplicateColumn))) ∧
    ((SQLManager.mk (preparedDatabase 3) markCipher).CreateSchemas noFault).1.1 = 0 ∧
    ((SQLManager.mk (preparedDatabase 3) markCipher).CreateSchemas noFault).1 ≠
      (1, some (.Wrap (.root (.TxError "2" .duplicateColumn))
        "Could not migrate sql schema, applied 1 Migrations")) := by
  decide

theorem test_up_0 (c : Nat) :
    migrate.ExecMax testTable (recorded testTable none
      [] c) (fun _ => none) testMigrations .Up 1 =
    ((1, none), recorded testTable none
      ["0-data"] c) := by
  rfl

theorem test_up_1 (c : Nat) :
    migrate.ExecMax testTable (recorded testTable none
      ["0-data"] c) (fun _ => none) testMigrations .Up 1 =
    ((1, none), recorded testTable (some { shape := createTable, rows := [] })
      ["0-data", "1"] c) := by
  rfl

theorem test_up_2 (c : Nat) :
    migrate.ExecMax testTable (recorded testTable (some { shape := createTable, rows := [] })
      ["0-data", "1"] c) (fun _ => none) testMigrations .Up 1 =
    ((1, none), recorded testTable (some { shape := createTable, rows := [storedTestRow "1-sid" "1-kid" 0] })
      ["0-data", "1", "1-data"] c) := by
  rfl

theorem test_up_3 (c : Nat) :
    migrate.ExecMax testTable (recorded testTable (some { shape := createTable, rows := [storedTestRow "1-sid" "1-kid" 0] })
      ["0-data", "1", "1-data"] c) (fun _ => none) testMigrations .Up 1 =
    ((1, none), recorded testTable (some { shape := migratedShape, rows := [storedTestRow "1-sid" "1-kid" c] })
      ["0-data", "1", "1-data", "2"] c) := by
  rfl

theorem test_up_4 (t1 c : Nat) :
    migrate.ExecMax testTable (recorded testTable (some { shape := migratedShape, rows := [storedTestRow "1-sid" "1-kid" t1] })
      ["0-data", "1", "1-data", "2"] c) (fun _ => none) testMigrations .Up 1 =
    ((1, none), recorded testTable (some { shape := migratedShape, rows := [storedTestRow "1-sid" "1-kid" t1, storedTestRow "2-sid" "2-kid" c] })
      ["0-data", "1", "1-data", "2", "2-data"] c) := by
  rfl

theorem test_up_5 (t1 t2 c : Nat) :
    migrate.ExecMax testTable (recorded testTable (some { shape := migratedShape, rows := [storedTestRow "1-sid" "1-kid" t1, storedTestRow "2-sid" "2-kid" t2] })
      ["0-data", "1", "1-data", "2", "2-data"] c) (fun _ => none) testMigrations .Up 1 =
    ((1, none), recorded testTable (some { shape := migratedShape, rows := [storedTestRow "1-sid" "1-kid" t1, storedTestRow "2-sid" "2-kid" t2] })
      ["0-data", "1", "1-data", "2", "2-data", "3"] c) := by
  rfl

theorem test_up_6 (t1 t2 c : Nat) :
    migrate.ExecMax testTable (recorded testTable (some { shape := migratedShape, rows := [storedTestRow "1-sid" "1-kid" t1, storedTestRow "2-sid" "2-kid" t2] })
      ["0-data", "1", "1-data", "2", "2-data", "3"] c) (fun _ => none) testMigrations .Up 1 =
    ((1, none), recorded testTable (some { shape := migratedShape, rows := [storedTestRow "1-sid" "1-kid" t1, storedTestRow "2-sid" "2-kid" t2, storedTestRow "3-sid" "3-kid" c] })
      ["0-data", "1", "1-data", "2", "2-data", "3", "3-data"] c) := by
  rfl

theorem test_down_0 (t1 t2 t3 c : Nat) :
    migrate.ExecMax testTable (recorded testTable (some { shape := migratedShape, rows := [storedTestRow "1-sid" "1-kid" t1, storedTestRow "2-sid" "2-kid" t2, storedTestRow "3-sid" "3-kid" t3] })
      ["0-data", "1", "1-data", "2", "2-data", "3", "3-data"] c) (fun _ => none) testMigrations .Down 1 =
    ((1, none), recorded testTable (some { shape := migratedShape, rows := [storedTestRow "1-sid" "1-kid" t1, storedTestRow "2-sid" "2-kid" t2] })
      ["0-data", "1", "1-data", "2", "2-data", "3"] c) := by
  rfl

theorem test_down_1 (t1 t2 c : Nat) :
    migrate.ExecMax testTable (recorded testTable (some { shape := migratedShape, rows := [storedTestRow "1-sid" "1-kid" t1, storedTestRow "2-sid" "2-kid" t2] })
      ["0-data", "1", "1-data", "2", "2-data", "3"] c) (fun _ => none) testMigrations .Down 1 =
    ((1, none), recorded testTable (some { shape := migratedShape, rows := [storedTestRow "1-sid" "1-kid" t1, storedTestRow "2-sid" "2-kid" t2] })
      ["0-data", "1", "1-data", "2", "2-data"] c) := by
  rfl

theorem test_down_2 (t1 t2 c : Nat) :
    migrate.ExecMax testTable (recorded testTable (some { shape := migratedShape, rows := [storedTestRow "1-sid" "1-kid" t1, storedTestRow "2-sid" "2-kid" t2] })
      ["0-data", "1", "1-data", "2", "2-data"] c) (fun _ => none) testMigrations .Down 1 =
    ((1, none), recorded testTable (some { shape := migratedShape, rows := [storedTestRow "1-sid" "1-kid" t1] })
      ["0-data", "1", "1-data", "2"] c) := by
  rfl

theorem test_down_3 (t1 c : Nat) :
    migrate.ExecMax testTable (recorded testTable (some { shape := migratedShape, rows := [storedTestRow "1-sid" "1-kid" t1] })
      ["0-data", "1", "1-data", "2"] c) (fun _ => none) testMigrations .Down 1 =
    ((1, none), recorded testTable (some { shape := createTable, rows := [storedTestRow "1-sid" "1-kid" 0] })
      ["0-data", "1", "1-data"] c) := by
  rfl

theorem test_down_4 (c : Nat) :
    migrate.ExecMax testTable (recorded testTable (some { shape := createTable, rows := [storedTestRow "1-sid" "1-kid" 0] })
      ["0-data", "1", "1-data"] c) (fun _ => none) testMigrations .Down 1 =
    ((1, none), recorded testTable (some { shape := createTable, rows := [] })
      ["0-data", "1"] c) := by
  rfl

theorem test_down_5 (c : Nat) :
    migrate.ExecMax testTable (recorded testTable (some { shape := createTable, rows := [] })
      ["0-data", "1"] c) (fun _ => none) testMigrations .Down 1 =
    ((1, none), recorded testTable none
      ["0-data"] c) := by
  rfl

theorem test_down_6 (c : Nat) :
    migrate.ExecMax testTable (recorded testTable none
      ["0-data"] c) (fun _ => none) testMigrations .Down 1 =
    ((1, none), recorded testTable none
      [] c) := by
  rfl

theorem schema_up_0 (c : Nat) :
    migrate.ExecMax schemaTable (recorded schemaTable none
      [] c) (fun _ => none) Migrations .Up 1 =
    ((1, none), recorded schemaTable (some { shape := createTable, rows := [] })
      ["1"] c) := by
  rfl

theorem schema_up_1 (c : Nat) :
    migrate.ExecMax schemaTable (recorded schemaTable (some { shape := createTable, rows := [] })
      ["1"] c) (fun _ => none) Migrations .Up 1 =
    ((1, none), recorded schemaTable (some { shape := migratedShape, rows := [] })
      ["1", "2"] c) := by
  rfl

theorem schema_up_2 (c : Nat) :
    migrate.ExecMax schemaTable (recorded schemaTable (some { shape := migratedShape, rows := [] })
      ["1", "2"] c) (fun _ => none) Migrations .Up 1 =
    ((1, none), recorded schemaTable (some { shape := migratedShape, rows := [] })
      ["1", "2", "3"] c) := by
  rfl

theorem schema_down_0 (c : Nat) :
    migrate.ExecMax schemaTable (recorded schemaTable (some { shape := migratedShape, rows := [] })
      ["1", "2", "3"] c) (fun _ => none) Migrations .Down 1 =
    ((1, none), recorded schemaTable (some { shape := migratedShape, rows := [] })
      ["1", "2"] c) := by
  rfl

theorem schema_down_1 (c : Nat) :
    migrate.ExecMax schemaTable (recorded schemaTable (some { shape := migratedShape, rows := [] })
      ["1", "2"] c) (fun _ => none) Migrations .Down 1 =
    ((1, none), recorded schemaTable (some { shape := createTable, rows := [] })
      ["1"] c) := by
  rfl

theorem schema_down_2 (c : Nat) :
    migrate.ExecMax schemaTable (recorded schemaTable (some { shape := createTable, rows := [] })
      ["1"] c) (fun _ => none) Migrations .Down 1 =
    ((1, none), recorded schemaTable none
      [] c) := by
  rfl

theorem execSteps_succ (table : String) (source : List Migration)
    (dir : MigrationDirection) (d n : Nat) (db : Database) (r : Nat × Option Error)
    (db2 : Database) (h : migrate.ExecMax table db (fun _ => none) source dir 1 = (r, db2)) :
    execSteps table source dir d (n + 1) db =
      (r :: (execSteps table source dir d n (db2.advance d)).1,
       (execSteps table source dir d n (db2.advance d)).2) := by
  simp [execSteps, h]

theorem recorded_advance (table : String) (jwk : Option Table) (ids : List String)
    (c d : Nat) : (recorded table jwk ids c).advance d = recorded table jwk ids (c + d) :=
  rfl

theorem execSteps_zero (table : String) (source : List Migration)
    (dir : MigrationDirection) (d : Nat) (db : Database) :
    execSteps table source dir d 0 db = ([], db) :=
  rfl

theorem test_up_all (c0 d : Nat) :
    execSteps testTable testMigrations .Up d 7 (recorded testTable none [] c0) =
      (List.replicate 7 (1, none),
       recorded testTable (some {
           shape := migratedShape,
           rows := [storedTestRow "1-sid" "1-kid" (c0 + d + d + d), storedTestRow "2-sid" "2-kid" (c0 + d + d + d + d),
                    storedTestRow "3-sid" "3-kid" (c0 + d + d + d + d + d + d)] })
         ["0-data", "1", "1-data", "2", "2-data", "3", "3-data"] (c0 + d + d + d + d + d + d + d)) := by
  rw [execSteps_succ _ _ _ _ 6 _ _ _ (test_up_0 c0), recorded_advance,
    execSteps_succ _ _ _ _ 5 _ _ _ (test_up_1 (c0 + d)), recorded_advance,
    execSteps_succ _ _ _ _ 4 _ _ _ (test_up_2 (c0 + d + d)), recorded_advance,
    execSteps_succ _ _ _ _ 3 _ _ _ (test_up_3 (c0 + d + d + d)), recorded_advance,
    execSteps_succ _ _ _ _ 2 _ _ _ (test_up_4 (c0 + d + d + d) (c0 + d + d + d + d)), recorded_advance,
    execSteps_succ _ _ _ _ 1 _ _ _ (test_up_5 (c0 + d + d + d) (c0 + d + d + d + d) (c0 + d + d + d + d + d)), recorded_advance,
    execSteps_succ _ _ _ _ 0 _ _ _ (test_up_6 (c0 + d + d + d) (c0 + d + d + d + d) (c0 + d + d + d + d + d + d)), recorded_advance,
    execSteps_zero]
  rfl

theorem test_down_all (t1 t2 t3 c0 d : Nat) :
    execSteps testTable testMigrations .Down d 7
      (recorded testTable (some {
           shape := migratedShape,
           rows := [storedTestRow "1-sid" "1-kid" t1, storedTestRow "2-sid" "2-kid" t2,
                    storedTestRow "3-sid" "3-kid" t3] })
         ["0-data", "1", "1-data", "2", "2-data", "3", "3-data"] c0) =
      (List.replicate 7 (1, none), recorded testTable none [] (c0 + d + d + d + d + d + d + d)) := by
  rw [execSteps_succ _ _ _ _ 6 _ _ _ (test_down_0 t1 t2 t3 c0), recorded_advance,
    execSteps_succ _ _ _ _ 5 _ _ _ (test_down_1 t1 t2 (c0 + d)), recorded_advance,
    execSteps_succ _ _ _ _ 4 _ _ _ (test_down_2 t1 t2 (c0 + d + d)), recorded_advance,
    execSteps_succ _ _ _ _ 3 _ _ _ (test_down_3 t1 (c0 + d + d + d)), recorded_advance,
    execSteps_succ _ _ _ _ 2 _ _ _ (test_down_4 (c0 + d + d + d + d)), recorded_advance,
    execSteps_succ _ _ _ _ 1 _ _ _ (test_down_5 (c0 + d + d + d + d + d)), recorded_advance,
    execSteps_succ _ _ _ _ 0 _ _ _ (test_down_6 (c0 + d + d + d + d + d + d)), recorded_advance,
    execSteps_zero]
  rfl

theorem schema_up_all (c0 d : Nat) :
    execSteps schemaTable Migrations .Up d 3 (recorded schemaTable none [] c0) =
      (List.replicate 3 (1, none),
       recorded schemaTable (some { shape := migratedShape, rows := [] })
         ["1", "2", "3"] (c0 + d + d + d)) := by
  rw [execSteps_succ _ _ _ _ 2 _ _ _ (schema_up_0 c0), recorded_advance,
    execSteps_succ _ _ _ _ 1 _ _ _ (schema_up_1 (c0 + d)), recorded_advance,
    execSteps_succ _ _ _ _ 0 _ _ _ (schema_up_2 (c0 + d + d)), recorded_advance,
    execSteps_zero]
  rfl

theorem schema_down_all (c0 d : Nat) :
    execSteps schemaTable Migrations .Down d 3
      (recorded schemaTable (some { shape := migratedShape, rows := [] })
         ["1", "2", "3"] c0) =
      (List.replicate 3 (1, none), recorded schemaTable none [] (c0 + d + d + d)) := by
  rw [execSteps_succ _ _ _ _ 2 _ _ _ (schema_down_0 c0), recorded_advance,
    execSteps_succ _ _ _ _ 1 _ _ _ (schema_down_1 (c0 + d)), recorded_advance,
    execSteps_succ _ _ _ _ 0 _ _ _ (schema_down_2 (c0 + d + d)), recorded_advance,
    execSteps_zero]
  rfl

/-- C10: from a database without the table `hydra_jwk`, the three steps of `Migrations`
applied forward one at a time (also interleaved with the data steps of the migration
test) each succeed with count 1; the reverse steps in reverse order then each succeed
with count 1 and leave the table absent and the bookkeeping empty; and applying the
forward steps again yields the same table shape as the first run: `sid`, `kid`,
`version` defaulting to 0, `keydata`, `created_at`, with primary key `(sid, kid)`. -/
theorem C10_migration_reproducible (now d : Nat) :
    ((execSteps schemaTable Migrations .Up d 3 (freshDatabase now)).1 =
        List.replicate 3 (1, none) ∧
      (execSteps schemaTable Migrations .Up d 3 (freshDatabase now)).2.hydra_jwk =
        some { shape := migratedShape, rows := [] } ∧
      (execSteps schemaTable Migrations .Down d 3
        (execSteps schemaTable Migrations .Up d 3 (freshDatabase now)).2).1 =
        List.replicate 3 (1, none) ∧
      (execSteps schemaTable Migrations .Down d 3
        (execSteps schemaTable Migrations .Up d 3 (freshDatabase now)).2).2.hydra_jwk =
        none ∧
      (execSteps schemaTable Migrations .Down d 3
        (execSteps schemaTable Migrations .Up d 3 (freshDatabase now)).2).2.records = [] ∧
      (execSteps schemaTable Migrations .Up d 3
        (execSteps schemaTable Migrations .Down d 3
          (execSteps schemaTable Migrations .Up d 3 (freshDatabase now)).2).2).1 =
        List.replicate 3 (1, none) ∧
      (execSteps schemaTable Migrations .Up d 3
        (execSteps schemaTable Migrations .Down d 3
          (execSteps schemaTable Migrations .Up d 3 (freshDatabase now)).2).2).2.hydra_jwk =
        (execSteps schemaTable Migrations .Up d 3 (freshDatabase now)).2.hydra_jwk) ∧
    ((execSteps testTable testMigrations .Up d 7 (freshDatabase now)).1 =
        List.replicate 7 (1, none) ∧
      (execSteps testTable testMigrations .Up d 7 (freshDatabase now)).2.hydra_jwk.map
        Table.shape = some migratedShape ∧
      (execSteps testTable testMigrations .Down d 7
        (execSteps testTable testMigrations .Up d 7 (freshDatabase now)).2).1 =
        List.replicate 7 (1, none) ∧
      (execSteps testTable testMigrations .Down d 7
        (execSteps testTable testMigrations .Up d 7 (freshDatabase now)).2).2.hydra_jwk =
        none ∧
      (execSteps testTable testMigrations .Down d 7
        (execSteps testTable testMigrations .Up d 7 (freshDatabase now)).2).2.records = [] ∧
      (execSteps testTable testMigrations .Up d 7
        (execSteps testTable testMigrations .Down d 7
          (execSteps testTable testMigrations .Up d 7 (freshDatabase now)).2).2).1 =
        List.replicate 7 (1, none) ∧
      (execSteps testTable testMigrations .Up d 7
        (execSteps testTable testMigrations .Down d 7
          (execSteps testTable testMigrations .Up d 7
            (freshDatabase now)).2).2).2.hydra_jwk.map Table.shape =
        (execSteps testTable testMigrations .Up d 7 (freshDatabase now)).2.hydra_jwk.map
          Table.shape) ∧
    migratedShape =
      { columns :=
          [ { name := .sid, type := .varchar 255, notNull := true, dflt := none },
            { name := .kid, type := .varchar 255, notNull := true, dflt := none },
            { name := .version, type := .int, notNull := true, dflt := some (.lit 0) },
            { name := .keydata, type := .text, notNull := true, dflt := none },
            { name := .created_at, type := .timestamp, notNull := true,
              dflt := some .now } ],
        primaryKey := [.sid, .kid] } := by
  have hs : freshDatabase now = recorded schemaTable none [] now := rfl
  have ht : freshDatabase now = recorded testTable none [] now := rfl
  have hsu := schema_up_all now d
  have hsd := schema_down_all (now + d + d + d) d
  have hsu2 := schema_up_all (now + d + d + d + d + d + d) d
  have htu := test_up_all now d
  have htd := test_down_all (now + d + d + d) (now + d + d + d + d)
    (now + d + d + d + d + d + d) (now + d + d + d + d + d + d + d) d
  have htu2 := test_up_all
    (now + d + d + d + d + d + d + d + d + d + d + d + d + d + d) d
  refine ⟨?_, ?_, rfl⟩
  · rw [hs, hsu]
    simp only []
    rw [hsd]
    simp only []
    rw [hsu2]
    refine ⟨?_, ?_, ?_, ?_, ?_, ?_, ?_⟩ <;> trivial
  · rw [ht, htu]
    simp only []
    rw [htd]
    simp only []
    rw [htu2]
    refine ⟨?_, ?_, ?_, ?_, ?_, ?_, ?_⟩ <;> trivial

/-- C1 as stated fails: the toy cipher and codec undo themselves, yet on the table that
`CreateSchemas` leaves when step 2 fails (no `created_at` column) `AddKey` succeeds and
`GetKey` returns the undefined-column error, and on a table without the primary key that
already holds a row for `("set-a", "k1")` `AddKey` succeeds and `GetKey` returns the
older key. -/
theorem C1_counterexample :
    (∀ b s, markCipher.Encrypt b = .ok s → markCipher.Decrypt s = .ok b) ∧
    (∀ key b, pairJSON.Marshal key = .ok b → pairJSON.Unmarshal b = .ok key) ∧
    (partlyMigrated.AddKey pairJSON none "set-a" (keyWithId "k1" "material-1")).1 = none ∧
    (partlyMigrated.AddKey pairJSON none "set-a" (keyWithId "k1" "material-1")).2.GetKey
      pairJSON none "set-a" "k1" = .error (.WithStack (.root (.sql .undefinedColumn))) ∧
    (unkeyedSameTick.AddKey pairJSON none "set-a" (keyWithId "k1" "new")).1 = none ∧
    (unkeyedSameTick.AddKey pairJSON none "set-a" (keyWithId "k1" "new")).2.GetKey
      pairJSON none "set-a" "k1" = .ok { Keys := [keyWithId "k1" "old"] } ∧
    ¬ ((unkeyedSameTick.AddKey pairJSON none "set-a" (keyWithId "k1" "new")).2.GetKey
      pairJSON none "set-a" "k1" = .ok { Keys := [keyWithId "k1" "new"] }) :=
  ⟨markCipher_roundtrip, pairJSON_roundtrip, by decide, by decide, by decide, by decide,
   by decide⟩

theorem addKeySetLoop_failing_step (json : JSON) (cipher : AEAD) (f : TxFaults)
    (re : DriverFault) (hre : f.rollback = some re) (set : String)
    (keys : List JSONWebKey) (i : Nat) (tx0 : Database) (e : Error)
    (h : addKeySetLoop json cipher f set i keys tx0 = .error e) :
    ∃ pre k post tx trig, keys = pre ++ k :: post ∧
      addKeySetLoop json cipher f set i pre tx0 = .ok tx ∧
      (∀ key ∈ pre, ∃ out enc, json.Marshal key = .ok out ∧ cipher.Encrypt out = .ok enc) ∧
      e = .Wrap (.root trig) re.msg ∧
      ((∃ msg, json.Marshal k = .error msg ∧ trig = .json msg) ∨
       (∃ out msg, json.Marshal k = .ok out ∧ cipher.Encrypt out = .error msg ∧
          trig = .cipher msg) ∨
       (∃ out enc se, json.Marshal k = .ok out ∧ cipher.Encrypt out = .ok enc ∧
          tx.Exec (f.exec (i + pre.length)) (insertStmt set k enc) = .error se ∧
          trig = .sql se)) := by
  induction keys generalizing i tx0 with
  | nil => simp [addKeySetLoop] at h
  | cons k rest ih =>
    unfold addKeySetLoop at h
    cases hm : json.Marshal k with
    | error msg =>
      simp only [hm, Except.error.injEq] at h
      exact ⟨[], k, rest, tx0, .json msg, rfl, rfl, by simp,
        by rw [← h, rollbackThen_some f re hre], Or.inl ⟨msg, hm, rfl⟩⟩
    | ok out =>
      simp only [hm] at h
      cases hc : cipher.Encrypt out with
      | error msg =>
        simp only [hc, Except.error.injEq] at h
        exact ⟨[], k, rest, tx0, .cipher msg, rfl, rfl, by simp,
          by rw [← h, rollbackThen_some f re hre], Or.inr (Or.inl ⟨out, msg, hm, hc, rfl⟩)⟩
      | ok enc =>
        simp only [hc] at h
        cases hi : tx0.Exec (f.exec i) (insertStmt set k enc) with
        | error se =>
          simp only [hi, Except.error.injEq] at h
          exact ⟨[], k, rest, tx0, .sql se, rfl, rfl, by simp,
            by rw [← h, rollbackThen_some f re hre],
            Or.inr (Or.inr ⟨out, enc, se, hm, hc, by simpa using hi, rfl⟩)⟩
        | ok tx2 =>
          simp only [hi] at h
          obtain ⟨pre, k2, post, tx, trig, hk, hpre, hall, he, hcase⟩ := ih (i + 1) tx2 h
          refine ⟨k :: pre, k2, post, tx, trig, by rw [hk]; rfl, ?_, ?_, he, ?_⟩
          · simp only [addKeySetLoop, hm, hc, hi]
            exact hpre
          · intro key hkey
            rcases List.mem_cons.1 hkey with hh | hh
            · subst hh
              exact ⟨out, enc, hm, hc⟩
            · exact hall key hh
          · have hidx : i + (k :: pre).length = i + 1 + pre.length := by
              simp only [List.length_cons]; omega
            rw [hidx]
            exact hcase

/-- C9: when a step of `AddKeySet` after `Beginx` fails and the rollback fails too, the
returned error is the triggering error wrapped with the text of the rollback error, where
the triggering error is the error of the step that failed: the keys before the failing
one all went through, and the failing key's `Marshal`, `Encrypt` or insert returned it,
or all keys went through and `Commit` returned it.  Its cause is the triggering error,
its text starts with the rollback text, and it differs from the error the same call
returns when the rollback is clean. -/
theorem C9_rollback_failure_surfaced (json : JSON) (m : SQLManager) (f : TxFaults)
    (set : String) (keys : JSONWebKeySet) (re : DriverFault) (e : Error)
    (hre : f.rollback = some re) (hb : f.begin = none)
    (herr : (m.AddKeySet json f set keys).1 = some e) :
    ∃ trig e0, e = .Wrap (.root trig) re.msg ∧ e.Cause = trig ∧
      e.Message = re.msg ++ ": " ++ trig.Message ∧
      ((∃ pre k post tx, keys.Keys = pre ++ k :: post ∧
          addKeySetLoop json m.Cipher f set 0 pre m.DB = .ok tx ∧
          (∀ key ∈ pre, ∃ out enc,
            json.Marshal key = .ok out ∧ m.Cipher.Encrypt out = .ok enc) ∧
          ((∃ msg, json.Marshal k = .error msg ∧ trig = .json msg) ∨
           (∃ out msg, json.Marshal k = .ok out ∧ m.Cipher.Encrypt out = .error msg ∧
              trig = .cipher msg) ∨
           (∃ out enc se, json.Marshal k = .ok out ∧ m.Cipher.Encrypt out = .ok enc ∧
              tx.Exec (f.exec pre.length) (insertStmt set k enc) = .error se ∧
              trig = .sql se))) ∨
       (∃ tx ce, addKeySetLoop json m.Cipher f set 0 keys.Keys m.DB = .ok tx ∧
          f.commit = some ce ∧ trig = .sql (.fault ce))) ∧
      (m.AddKeySet json { f with rollback := none } set keys).1 = some e0 ∧
      (e0 = .WithStack (.root trig) ∨ ∃ se, trig = .sql se ∧ e0 = HandleError se) ∧
      e ≠ e0 := by
  have key : ∃ trig e0, e = .Wrap (.root trig) re.msg ∧
      (m.AddKeySet json { f with rollback := none } set keys).1 = some e0 ∧
      (e0 = .WithStack (.root trig) ∨ ∃ se, trig = .sql se ∧ e0 = HandleError se) := by
    have hloop := addKeySetLoop_rollback json m.Cipher f re hre set keys.Keys 0 m.DB
    unfold SQLManager.AddKeySet at herr ⊢
    simp only [hb] at herr hloop ⊢
    cases hl : addKeySetLoop json m.Cipher f set 0 keys.Keys m.DB with
    | error err =>
      simp only [hl, Option.some.injEq] at herr
      subst herr
      obtain ⟨trig, e0, h1, h2, h3⟩ := hloop.2 err hl
      exact ⟨trig, e0, h1, by rw [h2], h3⟩
    | ok tx =>
      simp only [hl] at herr
      rw [hloop.1 tx hl]
      cases hc : f.commit with
      | none => simp [hc] at herr
      | some err =>
        simp only [hc, Option.some.injEq] at herr
        subst herr
        exact ⟨.sql (.fault err), HandleError (.fault err),
          rollbackThen_some f re hre _ _, by simp [rollbackThen], Or.inr ⟨_, rfl, rfl⟩⟩
  have step : ∃ trig, e = .Wrap (.root trig) re.msg ∧
      ((∃ pre k post tx, keys.Keys = pre ++ k :: post ∧
          addKeySetLoop json m.Cipher f set 0 pre m.DB = .ok tx ∧
          (∀ key ∈ pre, ∃ out enc,
            json.Marshal key = .ok out ∧ m.Cipher.Encrypt out = .ok enc) ∧
          ((∃ msg, json.Marshal k = .error msg ∧ trig = .json msg) ∨
           (∃ out msg, json.Marshal k = .ok out ∧ m.Cipher.Encrypt out = .error msg ∧
              trig = .cipher msg) ∨
           (∃ out enc se, json.Marshal k = .ok out ∧ m.Cipher.Encrypt out = .ok enc ∧
              tx.Exec (f.exec pre.length) (insertStmt set k enc) = .error se ∧
              trig = .sql se))) ∨
       (∃ tx ce, addKeySetLoop json m.Cipher f set 0 keys.Keys m.DB = .ok tx ∧
          f.commit = some ce ∧ trig = .sql (.fault ce))) := by
    unfold SQLManager.AddKeySet at herr
    simp only [hb] at herr
    cases hl : addKeySetLoop json m.Cipher f set 0 keys.Keys m.DB with
    | error err =>
      simp only [hl, Option.some.injEq] at herr
      subst herr
      obtain ⟨pre, k, post, tx, trig, hk, hpre, hall, he, hcase⟩ :=
        addKeySetLoop_failing_step json m.Cipher f re hre set keys.Keys 0 m.DB err hl
      simp only [Nat.zero_add] at hcase
      exact ⟨trig, he, Or.inl ⟨pre, k, post, tx, hk, hpre, hall, hcase⟩⟩
    | ok tx =>
      simp only [hl] at herr
      cases hc : f.commit with
      | none => simp [hc] at herr
      | some ce =>
        simp only [hc, Option.some.injEq] at herr
        subst herr
        exact ⟨.sql (.fault ce), rollbackThen_some f re hre _ _, Or.inr ⟨tx, ce, rfl, rfl, rfl⟩⟩
  obtain ⟨trig, e0, h1, h2, h3⟩ := key
  obtain ⟨trig2, h4, h5⟩ := step
  have htrig : trig2 = trig := by
    rw [h1] at h4
    simp only [Error.Wrap.injEq, Error.root.injEq, and_true] at h4
    exact h4.symm
  subst htrig
  refine ⟨trig2, e0, h1, by rw [h1]; rfl, by rw [h1]; rfl, h5, h2, h3, ?_⟩
  rw [h1]
  rcases h3 with h | ⟨se, hs, h⟩
  · rw [h]; simp
  · rw [h, hs]
    exact wrap_ne_handleError se re.msg

/-- C9 at a concrete input: encryption of the second of three keys fails and the rollback
fails; the returned error wraps that cipher error with the rollback text. -/
theorem C9_rollback_failure_surfaced_witness :
    (failingManager.AddKeySet pairJSON rollbackFails "set-a" threeKeys).1 =
      some (.Wrap (.root (.cipher "cipher: forced failure")) "driver: bad connection") ∧
    pairJSON.Marshal (keyWithId "k2" "material-2") = .ok "k2:material-2" ∧
    failingManager.Cipher.Encrypt "k2:material-2" = .error "cipher: forced failure" ∧
    ∃ trig e0,
      Error.Wrap (.root (.cipher "cipher: forced failure")) "driver: bad connection" =
        .Wrap (.root trig) "driver: bad connection" ∧
      (Error.Wrap (.root (.cipher "cipher: forced failure")) "driver: bad connection").Cause
        = trig ∧
      (Error.Wrap (.root (.cipher "cipher: forced failure"))
        "driver: bad connection").Message = "driver: bad connection" ++ ": " ++ trig.Message ∧
      ((∃ pre k post tx, threeKeys.Keys = pre ++ k :: post ∧
          addKeySetLoop pairJSON failingManager.Cipher rollbackFails "set-a" 0 pre
            failingManager.DB = .ok tx ∧
          (∀ key ∈ pre, ∃ out enc,
            pairJSON.Marshal key = .ok out ∧ failingManager.Cipher.Encrypt out = .ok enc) ∧
          ((∃ msg, pairJSON.Marshal k = .error msg ∧ trig = .json msg) ∨
           (∃ out msg, pairJSON.Marshal k = .ok out ∧
              failingManager.Cipher.Encrypt out = .error msg ∧ trig = .cipher msg) ∨
           (∃ out enc se, pairJSON.Marshal k = .ok out ∧
              failingManager.Cipher.Encrypt out = .ok enc ∧
              tx.Exec (rollbackFails.exec pre.length) (insertStmt "set-a" k enc) =
                .error se ∧
              trig = .sql se))) ∨
       (∃ tx ce, addKeySetLoop pairJSON failingManager.Cipher rollbackFails "set-a" 0
            threeKeys.Keys failingManager.DB = .ok tx ∧
          rollbackFails.commit = some ce ∧ trig = .sql (.fault ce))) ∧
      (failingManager.AddKeySet pairJSON { rollbackFails with rollback := none } "set-a"
        threeKeys).1 = some e0 ∧
      (e0 = .WithStack (.root trig) ∨ ∃ se, trig = .sql se ∧ e0 = HandleError se) ∧
      Error.Wrap (.root (.cipher "cipher: forced failure")) "driver: bad connection" ≠ e0 :=
  ⟨by decide, by decide, by decide,
   C9_rollback_failure_surfaced pairJSON failingManager rollbackFails "set-a" threeKeys
     { msg := "driver: bad connection" }
     (.Wrap (.root (.cipher "cipher: forced failure")) "driver: bad connection")
     rfl rfl (by decide)⟩

end Jwk
